import Mathlib

/-!
Verification of the gql-alchemy query pipeline: a shallow embedding of the
query model (query_model.py), the stack-driven parser (gql_parser.py, with
the Reader from graphql_parser.py), the schema construction of gql_schema.py,
the validator (validator.py) and the executor (executor.py), together with
theorems settling the specification claims.  Machine integers are modelled by
Int, Python dicts by ordered association lists, exceptions by Except.
-/

set_option maxRecDepth 20000

namespace GqlAlchemy

/-! ## Query model (query_model.py) -/

namespace Qm

/-- Type references occurring in variable definitions (query_model.Type:
NamedType and ListType, each carrying a nullability flag). -/
inductive GqlType where
  | named (name : String) (null : Bool)
  | list (elType : GqlType) (null : Bool)
deriving DecidableEq, Repr

/-- Value nodes (query_model.Value / ConstValue).  The constant variants
ConstListValue and ConstObjectValue are kept separate from ListValue and
ObjectValue exactly as in the source.  Floats keep their source lexeme since
no claim computes with float semantics. -/
inductive Value where
  | var (name : String)
  | int (value : Int)
  | float (lexeme : String)
  | str (value : String)
  | bool (value : Bool)
  | null
  | enum (value : String)
  | list (values : List Value)
  | constList (values : List Value)
  | obj (values : List (String × Value))
  | constObj (values : List (String × Value))

/-- query_model.Argument: a named argument value. -/
structure Argument where
  name : String
  value : Value

/-- query_model.Directive. -/
structure Directive where
  name : String
  arguments : List Argument

/-- query_model.VariableDefinition. -/
structure VariableDefinition where
  name : String
  type : GqlType
  default : Option Value

/-- query_model.Selection: FieldSelection, FragmentSpread or InlineFragment.
The FieldSelection `alias` attribute is rendered `alias_` because `alias` is
a Lean keyword. -/
inductive Selection where
  | field (alias_ : Option String) (name : String) (arguments : List Argument)
      (directives : List Directive) (selections : List Selection)
  | fragmentSpread (fragmentName : String) (directives : List Directive)
  | inlineFragment (onType : Option GqlType) (directives : List Directive)
      (selections : List Selection)

/-- Operation kind: query_model.Query vs query_model.Mutation. -/
inductive OpKind where
  | query
  | mutation
deriving DecidableEq, Repr

/-- query_model.Operation (the common shape of Query and Mutation); the
`variables` attribute is rendered `vars` because `variables` is a Lean
command keyword. -/
structure Operation where
  kind : OpKind
  name : Option String
  vars : List VariableDefinition
  directives : List Directive
  selections : List Selection

/-- query_model.Fragment. -/
structure Fragment where
  name : String
  onType : GqlType
  directives : List Directive
  selections : List Selection

/-- query_model.Document: operations plus fragments. -/
structure Document where
  operations : List Operation
  fragments : List Fragment

end Qm

/-! ## Reader (graphql_parser.Reader, used by gql_parser through raw_reader)

The reader is modelled by the list of characters not yet consumed; the
source's integer index advances exactly when this suffix shrinks, so
"reader position advanced" is "suffix length decreased".  The line counter
only feeds diagnostics and is omitted; parse errors carry their message. -/

abbrev Reader := List Char

/-- Characters that may start a name, per NAME_RE `[_A-Za-z][_0-9A-Za-z]*`. -/
def isNameStart (c : Char) : Bool :=
  c = '_' || ('A' ≤ c && c ≤ 'Z') || ('a' ≤ c && c ≤ 'z')

/-- Characters that may continue a name, per NAME_RE. -/
def isNameChar (c : Char) : Bool :=
  isNameStart c || ('0' ≤ c && c ≤ '9')

/-- Decimal digit test used by the numeric literal regexes. -/
def isDigitCh (c : Char) : Bool := '0' ≤ c && c ≤ '9'

/-- Reader.lookup_ch's skipping loop: consume newlines, spaces, carriage
returns, tabs, commas, and `#` line comments (a comment is skipped up to but
not including the next newline, matching `text.find("\n", index)`).  Every
round consumes at least one character, so fuel equal to the input length
makes the structural recursion total without changing the result. -/
def skipAux : Nat → List Char → List Char
  | 0, r => r
  | fuel + 1, r =>
    match r with
    | [] => []
    | c :: cs =>
      if c = '\n' then skipAux fuel cs
      else if c = ' ' || c = '\r' || c = '\t' || c = ',' then skipAux fuel cs
      else if c = '#' then skipAux fuel (cs.dropWhile (fun d => d ≠ '\n'))
      else c :: cs

/-- Reader.lookup_ch's skipping of insignificant characters. -/
def skipInsignificant (r : Reader) : Reader := skipAux r.length r

/-- Reader.lookup_ch: skip insignificant characters, return the next
significant character (if any) without consuming it.  The skip itself is a
reader mutation, so the advanced reader is returned as well. -/
def lookup_ch (r : Reader) : Reader × Option Char :=
  let r1 := skipInsignificant r
  (r1, r1.head?)

/-- Reader.read_ch: lookup_ch and consume the returned character. -/
def read_ch (r : Reader) : Reader × Option Char :=
  let (r1, c) := lookup_ch r
  match c with
  | some ch => (r1.drop 1, some ch)
  | none => (r1, none)

/-- Reader.str_read_ch: consume one raw character, no skipping. -/
def str_read_ch (r : Reader) : Reader × Option Char :=
  match r with
  | [] => ([], none)
  | c :: cs => (cs, some c)

/-- Match NAME_RE at the current position (no skipping), returning the
lexeme and the rest. -/
def matchNameAt (r : Reader) : Option (String × Reader) :=
  match r with
  | [] => none
  | c :: cs =>
    if isNameStart c then
      let tail := cs.takeWhile isNameChar
      some (String.mk (c :: tail), cs.drop tail.length)
    else none

/-- Reader.read_re(NAME_RE): eat insignificant characters, then match a name. -/
def read_name_re (r : Reader) : Reader × Option String :=
  let r1 := skipInsignificant r
  match matchNameAt r1 with
  | some (s, r2) => (r2, some s)
  | none => (r1, none)

/-- One character of a compiled literal pattern: Python's assert_literal
interpolates the literal into a regex verb, so each `.` in the literal is the
regex wildcard (this matters for the literal `"..."`), and every other
character matches itself. -/
inductive PatChar where
  | any
  | lit (c : Char)
deriving DecidableEq, Repr

/-- Compile a literal string into its pattern, one PatChar per character. -/
def compilePat (s : String) : List PatChar :=
  s.data.map (fun c => if c = '.' then PatChar.any else PatChar.lit c)

/-- Match a compiled pattern at the current position. -/
def matchPat : List PatChar → Reader → Option Reader
  | [], r => some r
  | _ :: _, [] => none
  | p :: ps, c :: cs =>
    match p with
    | PatChar.any => matchPat ps cs
    | PatChar.lit l => if c = l then matchPat ps cs else none

/-- The lookahead `(?=[^_0-9A-Za-z]|$)` of gql_parser's assert_literal and
try_literal: the next character is absent or not a name character. -/
def literalLookahead (r : Reader) : Bool :=
  match r.head? with
  | none => true
  | some c => !(isNameChar c)

/-- try_literal: read_re of `(?:literal)(?=[^_0-9A-Za-z]|$)` — skip
insignificant characters, then match the compiled literal with lookahead.
Returns the reader (skip persists on failure) and whether it matched. -/
def try_literal (lit : String) (r : Reader) : Reader × Bool :=
  let r1 := skipInsignificant r
  match matchPat (compilePat lit) r1 with
  | some r2 => if literalLookahead r2 then (r2, true) else (r1, false)
  | none => (r1, false)

/-! ## Parse errors (gql_errors.GqlParsingError and RuntimeError) -/

/-- Parser-stage exceptions: GqlParsingError (with its message; position
diagnostics are omitted) and RuntimeError for the internal no-progress and
unexpected-None guards. -/
inductive PErr where
  | parsing (msg : String)
  | runtime (msg : String)
deriving DecidableEq, Repr

/-- LiteralExpected's message: one symbol gives `Expected '<s>'`, several give
`One of "a", "b" and "c" expected`. -/
def literalExpectedMsg (symbols : List String) : String :=
  match symbols with
  | [s] => "Expected '" ++ s ++ "'"
  | _ =>
    let quoted := symbols.map (fun s => "\"" ++ s ++ "\"")
    "One of " ++ String.intercalate ", " (quoted.dropLast)
      ++ " and " ++ (quoted.getLast? |>.getD "") ++ " expected"

/-- ElementParser.assert_ch: read one character and require it to equal the
expected one. -/
def assert_ch (r : Reader) (ch : Char) : Except PErr Reader :=
  let (r1, c) := read_ch r
  if c = some ch then Except.ok r1
  else Except.error (PErr.parsing (literalExpectedMsg [String.mk [ch]]))

/-- ElementParser.assert_literal: try_literal and fail with LiteralExpected
when it does not match. -/
def assert_literal (r : Reader) (lit : String) : Except PErr Reader :=
  let (r1, ok) := try_literal lit r
  if ok then Except.ok r1
  else Except.error (PErr.parsing (literalExpectedMsg [lit]))

/-- ElementParser.read_if: lookup_ch and consume when it equals the expected
character. -/
def read_if (r : Reader) (ch : Char) : Reader × Bool :=
  let (r1, c) := lookup_ch r
  if c = some ch then (r1.drop 1, true) else (r1, false)

/-- ElementParser.read_name: read_re(NAME_RE) with the forgot-to-close
diagnostic on failure. -/
def read_name (r : Reader) : Except PErr (Reader × String) :=
  let (r1, n) := read_name_re r
  match n with
  | some s => Except.ok (r1, s)
  | none => Except.error
      (PErr.parsing "Name expected (forgot to finish selections by '\x7d'?)")

/-! ## Numeric and fragment-spread token matchers (gql_parser regexes) -/

/-- ValueParser.INT_RE `-?(?:[1-9][0-9]*|0)` matched at the current
position: an optional minus sign, then either a nonzero digit followed by
greedy digits, or a single zero. -/
def matchIntAt (r : Reader) : Option (String × Reader) :=
  let (sign, r1) : String × Reader :=
    match r with
    | '-' :: rest => ("-", rest)
    | _ => ("", r)
  match r1 with
  | [] => none
  | c :: cs =>
    if '1' ≤ c && c ≤ '9' then
      let ds := cs.takeWhile isDigitCh
      some (sign ++ String.mk (c :: ds), cs.drop ds.length)
    else if c = '0' then some (sign ++ "0", cs)
    else none

/-- The fractional part `(?:\.[0-9]+)` of ValueParser.FLOAT_RE. -/
def matchFrAt (r : Reader) : Option (String × Reader) :=
  match r with
  | '.' :: cs =>
    let ds := cs.takeWhile isDigitCh
    if ds.isEmpty then none
    else some (String.mk ('.' :: ds), cs.drop ds.length)
  | _ => none

/-- The exponent part `(?:[eE][+-]?[0-9]+)` of ValueParser.FLOAT_RE. -/
def matchExpAt (r : Reader) : Option (String × Reader) :=
  match r with
  | [] => none
  | e :: cs =>
    if e = 'e' || e = 'E' then
      let (sgn, cs1) : String × Reader :=
        match cs with
        | s :: rest => if s = '+' || s = '-' then (String.mk [s], rest) else ("", cs)
        | [] => ("", cs)
      let ds := cs1.takeWhile isDigitCh
      if ds.isEmpty then none
      else some (String.mk [e] ++ sgn ++ String.mk ds, cs1.drop ds.length)
    else none

/-- ValueParser.FLOAT_RE `INT(?:FR EXP?|EXP)`: the integer part followed by a
fractional part with optional exponent, or by an exponent alone. -/
def matchFloatAt (r : Reader) : Option (String × Reader) := do
  let (i, r1) ← matchIntAt r
  match matchFrAt r1 with
  | some (f, r2) =>
    match matchExpAt r2 with
    | some (x, r3) => some (i ++ f ++ x, r3)
    | none => some (i ++ f, r2)
  | none =>
    match matchExpAt r1 with
    | some (x, r2) => some (i ++ x, r2)
    | none => none

/-- Reader.read_re(FLOAT_RE): skip insignificant characters, then match. -/
def read_re_float (r : Reader) : Reader × Option String :=
  let r1 := skipInsignificant r
  match matchFloatAt r1 with
  | some (s, r2) => (r2, some s)
  | none => (r1, none)

/-- Reader.read_re(INT_RE): skip insignificant characters, then match. -/
def read_re_int (r : Reader) : Reader × Option String :=
  let r1 := skipInsignificant r
  match matchIntAt r1 with
  | some (s, r2) => (r2, some s)
  | none => (r1, none)

/-- Decimal digits to a natural number, as Python's int() does. -/
def digitsToNat (ds : List Char) : Nat :=
  ds.foldl (fun a c => a * 10 + (c.toNat - 48)) 0

/-- Python int() on an INT_RE lexeme. -/
def strToInt (s : String) : Int :=
  match s.data with
  | '-' :: ds => - (digitsToNat ds : Int)
  | ds => (digitsToNat ds : Int)

/-- SelectionsParser.DETECT_FRAGMENT_SPREAD_RE
`\.\.\.[ \t]+([_A-Za-z][_0-9A-Za-z]*)` matched with Reader.match_re (no
skipping): three literal dots, one or more spaces or tabs, then a name; the
result is the name group. -/
def detectFragmentSpread (r : Reader) : Option String :=
  match r with
  | d1 :: d2 :: d3 :: rest =>
    if d1 = '.' ∧ d2 = '.' ∧ d3 = '.' then
      let ws := rest.takeWhile (fun c => c = ' ' || c = '\t')
      if ws.isEmpty then none
      else (matchNameAt (rest.drop ws.length)).map (fun p => p.1)
    else none
  | _ => none

/-! ## Type references and string literals inside the parser -/

/-- VariableDefinitionParser.parse_type / parse_list_type.  The fuel bounds
the `[`-nesting depth and is always called with more fuel than characters
remain, so it never runs out. -/
def parse_type_aux : Nat → Reader → Except PErr (Reader × Qm.GqlType)
  | 0, _ => Except.error (PErr.runtime "type nesting exceeds input length")
  | fuel + 1, r =>
    let (r1, ch) := lookup_ch r
    if ch = some '[' then do
      let r2 ← assert_ch r1 '['
      let (r3, el) ← parse_type_aux fuel r2
      let r4 ← assert_ch r3 ']'
      let (r5, bang) := read_if r4 '!'
      Except.ok (r5, Qm.GqlType.list el (!bang))
    else do
      let (r2, name) ← read_name r1
      let (r3, bang) := read_if r2 '!'
      Except.ok (r3, Qm.GqlType.named name (!bang))

/-- Hexadecimal digit value; StringValueParser.HEX_DIGITS membership. -/
def hexVal (c : Char) : Option Nat :=
  if '0' ≤ c && c ≤ '9' then some (c.toNat - 48)
  else if 'a' ≤ c && c ≤ 'f' then some (c.toNat - 87)
  else if 'A' ≤ c && c ≤ 'F' then some (c.toNat - 55)
  else none

/-- StringValueParser.parse_hex_digit. -/
def parse_hex_digit (r : Reader) : Except PErr (Reader × Nat) :=
  let (r1, c) := str_read_ch r
  match c with
  | some ch =>
    match hexVal ch with
    | some v => Except.ok (r1, v)
    | none => Except.error (PErr.parsing "Hex digit expected")
  | none => Except.error (PErr.parsing "Hex digit expected")

/-- StringValueParser.parse_unicode: four hex digits to one character. -/
def parse_unicode (r : Reader) : Except PErr (Reader × String) := do
  let (r1, d1) ← parse_hex_digit r
  let (r2, d2) ← parse_hex_digit r1
  let (r3, d3) ← parse_hex_digit r2
  let (r4, d4) ← parse_hex_digit r3
  Except.ok (r4, String.mk [Char.ofNat (d1 * 4096 + d2 * 256 + d3 * 16 + d4)])

/-- StringValueParser.parse_escape. -/
def parse_escape (r : Reader) : Except PErr (Reader × String) :=
  let (r1, c) := str_read_ch r
  match c with
  | some 'u' => parse_unicode r1
  | some '"' => Except.ok (r1, "\"")
  | some '\\' => Except.ok (r1, "\\")
  | some '/' => Except.ok (r1, "/")
  | some 'b' => Except.ok (r1, "\x08")
  | some 'f' => Except.ok (r1, "\x0c")
  | some 'n' => Except.ok (r1, "\n")
  | some 'r' => Except.ok (r1, "\x0d")
  | some 't' => Except.ok (r1, "\t")
  | some c =>
    Except.error (PErr.parsing
      ("Unexpected symbol '" ++ String.mk [c] ++ "' after '\\' in string literal"))
  | none =>
    Except.error (PErr.parsing "Unexpected symbol 'None' after '\\' in string literal")

/-- The `while True` body of StringValueParser.next: raw characters are
consumed until the closing quote; the fuel, always larger than the remaining
input, only discharges termination. -/
def string_body : Nat → String → Reader → Except PErr (Reader × String)
  | 0, _, _ => Except.error (PErr.runtime "string longer than input")
  | fuel + 1, acc, r =>
    let (r1, c) := str_read_ch r
    match c with
    | some '"' => Except.ok (r1, acc)
    | some '\\' => do
      let (r2, e) ← parse_escape r1
      string_body fuel (acc ++ e) r2
    | some ch =>
      if ch = '\n' || ch = '\x0d' then
        Except.error (PErr.parsing "New line is not allowed in string literal")
      else string_body fuel (acc.push ch) r1
    | none => Except.error (PErr.parsing "Unexpected end of input")

/-! ## Parser frames (gql_parser's ElementParser subclasses)

Each Python parser object becomes one Frame constructor holding exactly its
mutable attributes.  Attributes that a frame shares with its parent by list
reference (`self.operations`, `set_value` closures, …) become the frame's
own accumulator; the finished node travels to the parent when the frame pops,
which is also the moment the Python code appends through the shared
reference. -/
inductive Frame where
  | document (ops : List Qm.Operation) (frags : List Qm.Fragment)
      (sels : List Qm.Selection) (selectionAllowed queryAllowed : Bool)
  | operation (opType : Qm.OpKind) (name : Option String)
      (vars : List Qm.VariableDefinition) (dirs : List Qm.Directive)
      (sels : List Qm.Selection) (expVars expDirs expSels : Bool)
  | variablesF (vars : List Qm.VariableDefinition)
  | variableDefinition (name : Option String) (type : Option Qm.GqlType)
      (default : Option Qm.Value) (defaultChecked : Bool)
  | directivesF (dirs : List Qm.Directive)
  | directiveF (name : Option String) (args : List Qm.Argument)
      (argumentsChecked : Bool)
  | argumentsF (args : List Qm.Argument)
  | argumentF (name : Option String) (value : Option Qm.Value) (valueParsed : Bool)
  | selectionsF (sels : List Qm.Selection)
  | fieldF (alias_ : Option String) (name : Option String)
      (args : List Qm.Argument) (dirs : List Qm.Directive)
      (sels : List Qm.Selection) (canArgs canDirs canSels : Bool)
  | valueF (const : Bool)
  | listValueF (const : Bool) (values : List Qm.Value)
  | objectValueF (const : Bool) (values : List (String × Qm.Value))
      (pending : Option String)
  | stringValueF (value : String)
  | fragmentSpreadF (name : Option String) (dirs : List Qm.Directive)
  | inlineFragmentF (onType : Option Qm.GqlType) (dirs : List Qm.Directive)
      (sels : List Qm.Selection) (directivesParsed selectionsParsed : Bool)
  | fragmentF (name : Option String) (onType : Option Qm.GqlType)
      (dirs : List Qm.Directive) (sels : List Qm.Selection)
      (directivesParsed selectionsParsed : Bool)

/-- The Python class name of a frame, used in the no-progress RuntimeError. -/
def Frame.pyName : Frame → String
  | .document .. => "DocumentParser"
  | .operation .. => "OperationParser"
  | .variablesF .. => "VariablesParser"
  | .variableDefinition .. => "VariableDefinitionParser"
  | .directivesF .. => "DirectivesParser"
  | .directiveF .. => "DirectiveParser"
  | .argumentsF .. => "ArgumentsParser"
  | .argumentF .. => "ArgumentParser"
  | .selectionsF .. => "SelectionsParser"
  | .fieldF .. => "FieldParser"
  | .valueF .. => "ValueParser"
  | .listValueF .. => "ListValueParser"
  | .objectValueF .. => "ObjectValueParser"
  | .stringValueF .. => "StringValueParser"
  | .fragmentSpreadF .. => "FragmentSpreadParser"
  | .inlineFragmentF .. => "InlineFragmentParser"
  | .fragmentF .. => "FragmentParser"

/-- A finished production travelling from a popped frame to its creator
(replacing the source's shared-list appends and set_* closures). -/
inductive OutNode where
  | doc (d : Qm.Document)
  | operationDone (op : Qm.Operation)
  | fragmentDone (f : Qm.Fragment)
  | variablesDone (vs : List Qm.VariableDefinition)
  | variableDefDone (v : Qm.VariableDefinition)
  | directivesDone (ds : List Qm.Directive)
  | directiveDone (d : Qm.Directive)
  | argumentsDone (args : List Qm.Argument)
  | argumentDone (a : Qm.Argument)
  | selectionsDone (ss : List Qm.Selection)
  | selectionDone (s : Qm.Selection)
  | valueDone (v : Qm.Value)

/-- The result of one ElementParser.next call: the frame's new state (its
attribute mutations), the optional child to push, the number of frames to
remove, the node finished by a popping frame, and the advanced reader. -/
structure StepOut where
  self : Frame
  toAdd : Option Frame
  removeCount : Nat
  out : Option OutNode
  reader : Reader

/-- The operation keyword consumed by OperationParser. -/
def Qm.OpKind.keyword : Qm.OpKind → String
  | .query => "query"
  | .mutation => "mutation"

/-- Each ElementParser's consume method: the entry consumption run by
push_to_stack right after the frame is pushed. -/
def Frame.consume (f : Frame) (r : Reader) : Except PErr (Frame × Reader) :=
  match f with
  | .document .. => Except.ok (f, r)
  | .operation opType name vars dirs sels eV eD eS => do
    let r1 ← assert_literal r opType.keyword
    let (r2, ch) := lookup_ch r1
    if (eV && ch = some '(') || (eD && ch = some '@') || (eS && ch = some '{') then
      Except.ok (.operation opType name vars dirs sels eV eD eS, r2)
    else
      let (r3, n) := read_name_re r2
      match n with
      | none => Except.error (PErr.parsing "One of `name`, '(', '@' or '\x7b' expected")
      | some nm => Except.ok (.operation opType (some nm) vars dirs sels eV eD eS, r3)
  | .variablesF vars => do
    let r1 ← assert_ch r '('
    Except.ok (.variablesF vars, r1)
  | .variableDefinition _ _ dflt dChecked => do
    let r1 ← assert_ch r '$'
    let (r2, nm) ← read_name r1
    let r3 ← assert_ch r2 ':'
    let (r4, ty) ← parse_type_aux (r3.length + 1) r3
    Except.ok (.variableDefinition (some nm) (some ty) dflt dChecked, r4)
  | .directivesF .. => Except.ok (f, r)
  | .directiveF _ args aChecked => do
    let r1 ← assert_ch r '@'
    let (r2, nm) ← read_name r1
    Except.ok (.directiveF (some nm) args aChecked, r2)
  | .argumentsF args => do
    let r1 ← assert_ch r '('
    Except.ok (.argumentsF args, r1)
  | .argumentF _ value vParsed => do
    let (r1, nm) ← read_name r
    let r2 ← assert_ch r1 ':'
    Except.ok (.argumentF (some nm) value vParsed, r2)
  | .selectionsF sels => do
    let r1 ← assert_ch r '{'
    Except.ok (.selectionsF sels, r1)
  | .fieldF _ _ args dirs sels cA cD cS => do
    let (r1, nm) ← read_name r
    let (r2, colon) := read_if r1 ':'
    if colon then do
      let (r3, nm2) ← read_name r2
      Except.ok (.fieldF (some nm) (some nm2) args dirs sels cA cD cS, r3)
    else Except.ok (.fieldF none (some nm) args dirs sels cA cD cS, r2)
  | .valueF .. => Except.ok (f, r)
  | .listValueF const values => do
    let r1 ← assert_ch r '['
    Except.ok (.listValueF const values, r1)
  | .objectValueF const values pending => do
    let r1 ← assert_ch r '{'
    Except.ok (.objectValueF const values pending, r1)
  | .stringValueF value => do
    let r1 ← assert_ch r '"'
    Except.ok (.stringValueF value, r1)
  | .fragmentSpreadF _ dirs => do
    let r1 ← assert_literal r "..."
    let (r2, nm) ← read_name r1
    Except.ok (.fragmentSpreadF (some nm) dirs, r2)
  | .inlineFragmentF _ dirs sels dP sP => do
    let r1 ← assert_literal r "..."
    let (r2, isOn) := try_literal "on" r1
    if isOn then do
      let (r3, nm) ← read_name r2
      Except.ok (.inlineFragmentF (some (Qm.GqlType.named nm true)) dirs sels dP sP, r3)
    else Except.ok (.inlineFragmentF none dirs sels dP sP, r2)
  | .fragmentF _ _ dirs sels dP sP => do
    let r1 ← assert_literal r "fragment"
    let (r2, nm) ← read_name r1
    if nm = "on" then
      Except.error (PErr.parsing "Fragment can not have name \"on\"")
    else do
      let r3 ← assert_literal r2 "on"
      let (r4, tn) ← read_name r3
      Except.ok (.fragmentF (some nm) (some (Qm.GqlType.named tn true)) dirs sels dP sP, r4)

/-- Each ElementParser's next method, driven by the parse loop. -/
def Frame.next (f : Frame) (r : Reader) : Except PErr StepOut :=
  match f with
  | .document ops frags sels selAllowed qAllowed =>
    let (ops1, sels1) : List Qm.Operation × List Qm.Selection :=
      if sels.length > 0 then (ops ++ [⟨Qm.OpKind.query, none, [], [], sels⟩], [])
      else (ops, sels)
    let (r1, ch) := lookup_ch r
    if selAllowed && ch = some '{' then
      Except.ok ⟨.document ops1 frags sels1 false false,
        some (.selectionsF sels1), 0, none, r1⟩
    else if ch = some 'm' then
      Except.ok ⟨.document ops1 frags sels1 selAllowed qAllowed,
        some (.operation Qm.OpKind.mutation none [] [] [] true true true), 0, none, r1⟩
    else if qAllowed && ch = some 'q' then
      Except.ok ⟨.document ops1 frags sels1 false qAllowed,
        some (.operation Qm.OpKind.query none [] [] [] true true true), 0, none, r1⟩
    else if ch = some 'f' then
      Except.ok ⟨.document ops1 frags sels1 selAllowed qAllowed,
        some (.fragmentF none none [] [] false false), 0, none, r1⟩
    else if ch = none then
      Except.ok ⟨.document ops1 frags sels1 selAllowed qAllowed,
        none, 1, some (.doc ⟨ops1, frags⟩), r1⟩
    else Except.error (PErr.parsing "One of top-level declaration expected")
  | .operation opType name vars dirs sels eV eD eS =>
    if !eV && !eD && !eS then
      Except.ok ⟨f, none, 1, some (.operationDone ⟨opType, name, vars, dirs, sels⟩), r⟩
    else
      let (r1, ch) := lookup_ch r
      if eV && ch = some '(' then
        Except.ok ⟨.operation opType name vars dirs sels false eD eS,
          some (.variablesF vars), 0, none, r1⟩
      else if eD && ch = some '@' then
        Except.ok ⟨.operation opType name vars dirs sels false false eS,
          some (.directivesF dirs), 0, none, r1⟩
      else if eS && ch = some '{' then
        Except.ok ⟨.operation opType name vars dirs sels false false false,
          some (.selectionsF sels), 0, none, r1⟩
      else
        Except.error (PErr.parsing (literalExpectedMsg
          ((if eV then ["("] else []) ++ (if eD then ["@"] else [])
            ++ (if eS then ["\x7b"] else []))))
  | .variablesF vars =>
    let (r1, ch) := lookup_ch r
    if ch = some '$' then
      Except.ok ⟨f, some (.variableDefinition none none none false), 0, none, r1⟩
    else if ch = some ')' then
      if vars.length = 0 then
        Except.error (PErr.parsing "Empty variable definition is not allowed")
      else Except.ok ⟨f, none, 1, some (.variablesDone vars), r1.drop 1⟩
    else Except.error (PErr.parsing (literalExpectedMsg ["$", ")"]))
  | .variableDefinition name ty dflt dChecked =>
    if !dChecked then
      let (r1, eq) := read_if r '='
      if eq then
        Except.ok ⟨.variableDefinition name ty dflt true, some (.valueF true), 0, none, r1⟩
      else
        match name, ty with
        | some n, some t =>
          Except.ok ⟨.variableDefinition name ty dflt true, none, 1,
            some (.variableDefDone ⟨n, t, dflt⟩), r1⟩
        | _, _ => Except.error (PErr.runtime "Unexpected `None`")
    else
      match name, ty with
      | some n, some t =>
        Except.ok ⟨f, none, 1, some (.variableDefDone ⟨n, t, dflt⟩), r⟩
      | _, _ => Except.error (PErr.runtime "Unexpected `None`")
  | .directivesF dirs =>
    let (r1, ch) := lookup_ch r
    if ch = some '@' then
      Except.ok ⟨f, some (.directiveF none [] false), 0, none, r1⟩
    else Except.ok ⟨f, none, 1, some (.directivesDone dirs), r1⟩
  | .directiveF name args aChecked =>
    if !aChecked then
      let (r1, ch) := lookup_ch r
      if ch = some '(' then
        Except.ok ⟨.directiveF name args true, some (.argumentsF args), 0, none, r1⟩
      else
        match name with
        | some n =>
          Except.ok ⟨.directiveF name args true, none, 1,
            some (.directiveDone ⟨n, args⟩), r1⟩
        | none => Except.error (PErr.runtime "Unexpected `None`")
    else
      match name with
      | some n => Except.ok ⟨f, none, 1, some (.directiveDone ⟨n, args⟩), r⟩
      | none => Except.error (PErr.runtime "Unexpected `None`")
  | .argumentsF args =>
    let (r1, closed) := read_if r ')'
    if closed then
      if args.length = 0 then
        Except.error (PErr.parsing "Empty arguments list is not allowed")
      else Except.ok ⟨f, none, 1, some (.argumentsDone args), r1⟩
    else Except.ok ⟨f, some (.argumentF none none false), 0, none, r1⟩
  | .argumentF name value vParsed =>
    if vParsed then
      match name, value with
      | some n, some v =>
        Except.ok ⟨f, none, 1, some (.argumentDone ⟨n, v⟩), r⟩
      | _, _ => Except.error (PErr.runtime "Unexpected `None`")
    else Except.ok ⟨.argumentF name value true, some (.valueF false), 0, none, r⟩
  | .selectionsF sels =>
    let (r1, closed) := read_if r '}'
    if closed then
      if sels.length = 0 then
        Except.error (PErr.parsing "Empty selection set is not allowed")
      else Except.ok ⟨f, none, 1, some (.selectionsDone sels), r1⟩
    else
      let (r2, ch) := lookup_ch r1
      if ch = some '.' then
        match detectFragmentSpread r2 with
        | some n =>
          if n ≠ "on" then
            Except.ok ⟨f, some (.fragmentSpreadF none []), 0, none, r2⟩
          else Except.ok ⟨f, some (.inlineFragmentF none [] [] false false), 0, none, r2⟩
        | none => Except.ok ⟨f, some (.inlineFragmentF none [] [] false false), 0, none, r2⟩
      else Except.ok ⟨f, some (.fieldF none none [] [] [] true true true), 0, none, r2⟩
  | .fieldF al name args dirs sels cA cD cS =>
    let (r1, ch) := lookup_ch r
    if cA && ch = some '(' then
      Except.ok ⟨.fieldF al name args dirs sels false cD cS,
        some (.argumentsF args), 0, none, r1⟩
    else if cD && ch = some '@' then
      Except.ok ⟨.fieldF al name args dirs sels false false cS,
        some (.directivesF dirs), 0, none, r1⟩
    else if cS && ch = some '{' then
      Except.ok ⟨.fieldF al name args dirs sels false false false,
        some (.selectionsF sels), 0, none, r1⟩
    else
      match name with
      | some n =>
        Except.ok ⟨f, none, 1,
          some (.selectionDone (Qm.Selection.field al n args dirs sels)), r1⟩
      | none => Except.error (PErr.runtime "Unexpected `None`")
  | .valueF const =>
    let (r1, ch) := lookup_ch r
    if ch = some '$' then
      if const then Except.error (PErr.parsing "Unexpected '$'")
      else do
        let r2 ← assert_ch r1 '$'
        let (r3, n) ← read_name r2
        Except.ok ⟨f, none, 1, some (.valueDone (Qm.Value.var n)), r3⟩
    else if ch = some '"' then
      Except.ok ⟨f, some (.stringValueF ""), 1, none, r1⟩
    else if ch = some '[' then
      Except.ok ⟨f, some (.listValueF const []), 1, none, r1⟩
    else if ch = some '{' then
      Except.ok ⟨f, some (.objectValueF const [] none), 1, none, r1⟩
    else
      let (r2, litTrue) := try_literal "true" r1
      if litTrue then Except.ok ⟨f, none, 1, some (.valueDone (Qm.Value.bool true)), r2⟩
      else
        let (r3, litFalse) := try_literal "false" r2
        if litFalse then Except.ok ⟨f, none, 1, some (.valueDone (Qm.Value.bool false)), r3⟩
        else
          let (r4, litNull) := try_literal "null" r3
          if litNull then Except.ok ⟨f, none, 1, some (.valueDone Qm.Value.null), r4⟩
          else
            let (r5, nm) := read_name_re r4
            match nm with
            | some n => Except.ok ⟨f, none, 1, some (.valueDone (Qm.Value.enum n)), r5⟩
            | none =>
              let (r6, fl) := read_re_float r5
              match fl with
              | some v => Except.ok ⟨f, none, 1, some (.valueDone (Qm.Value.float v)), r6⟩
              | none =>
                let (r7, iv) := read_re_int r6
                match iv with
                | some v =>
                  Except.ok ⟨f, none, 1, some (.valueDone (Qm.Value.int (strToInt v))), r7⟩
                | none => Except.error (PErr.parsing "Value expected")
  | .listValueF const values =>
    let (r1, closed) := read_if r ']'
    if closed then
      Except.ok ⟨f, none, 1,
        some (.valueDone (if const then Qm.Value.constList values else Qm.Value.list values)),
        r1⟩
    else Except.ok ⟨f, some (.valueF const), 0, none, r1⟩
  | .objectValueF const values _pending =>
    let (r1, closed) := read_if r '}'
    if closed then
      Except.ok ⟨f, none, 1,
        some (.valueDone (if const then Qm.Value.constObj values else Qm.Value.obj values)),
        r1⟩
    else do
      let (r2, n) ← read_name r1
      let r3 ← assert_ch r2 ':'
      Except.ok ⟨.objectValueF const values (some n), some (.valueF const), 0, none, r3⟩
  | .stringValueF acc => do
    let (r1, s) ← string_body (r.length + 1) acc r
    Except.ok ⟨f, none, 1, some (.valueDone (Qm.Value.str s)), r1⟩
  | .fragmentSpreadF name dirs =>
    let (r1, ch) := lookup_ch r
    if ch = some '@' then
      Except.ok ⟨f, some (.directivesF dirs), 0, none, r1⟩
    else
      match name with
      | some n =>
        Except.ok ⟨f, none, 1,
          some (.selectionDone (Qm.Selection.fragmentSpread n dirs)), r1⟩
      | none => Except.error (PErr.runtime "Unexpected `None`")
  | .inlineFragmentF onType dirs sels dP sP =>
    if !dP then
      let (r1, ch) := lookup_ch r
      if ch = some '@' then
        Except.ok ⟨.inlineFragmentF onType dirs sels true sP,
          some (.directivesF dirs), 0, none, r1⟩
      else if !sP then
        Except.ok ⟨.inlineFragmentF onType dirs sels true true,
          some (.selectionsF sels), 0, none, r1⟩
      else
        Except.ok ⟨f, none, 1,
          some (.selectionDone (Qm.Selection.inlineFragment onType dirs sels)), r1⟩
    else if !sP then
      Except.ok ⟨.inlineFragmentF onType dirs sels true true,
        some (.selectionsF sels), 0, none, r⟩
    else
      Except.ok ⟨f, none, 1,
        some (.selectionDone (Qm.Selection.inlineFragment onType dirs sels)), r⟩
  | .fragmentF name onType dirs sels dP sP =>
    if !dP then
      let (r1, ch) := lookup_ch r
      if ch = some '@' then
        Except.ok ⟨.fragmentF name onType dirs sels true sP,
          some (.directivesF dirs), 0, none, r1⟩
      else if !sP then
        Except.ok ⟨.fragmentF name onType dirs sels true true,
          some (.selectionsF sels), 0, none, r1⟩
      else
        match name, onType with
        | some n, some t =>
          Except.ok ⟨f, none, 1, some (.fragmentDone ⟨n, t, dirs, sels⟩), r1⟩
        | _, _ => Except.error (PErr.runtime "Unexpected `None`")
    else if !sP then
      Except.ok ⟨.fragmentF name onType dirs sels true true,
        some (.selectionsF sels), 0, none, r⟩
    else
      match name, onType with
      | some n, some t =>
        Except.ok ⟨f, none, 1, some (.fragmentDone ⟨n, t, dirs, sels⟩), r⟩
      | _, _ => Except.error (PErr.runtime "Unexpected `None`")

/-- Python dict assignment on an ordered association list: replace in place
when the key exists, append otherwise. -/
def dictSet {α : Type} (kvs : List (String × α)) (k : String) (v : α) :
    List (String × α) :=
  if kvs.any (fun p => p.1 = k) then
    kvs.map (fun p => if p.1 = k then (k, v) else p)
  else kvs ++ [(k, v)]

/-- Ordered association-list lookup (Python dict.get). -/
def dictGet {α : Type} (kvs : List (String × α)) (k : String) : Option α :=
  (kvs.find? (fun p => p.1 = k)).map (fun p => p.2)

/-- Delivery of a popped frame's finished node into the frame below it — the
shared list or closure the Python code would have appended through.  A
combination that no closure produces yields none (an impossibility the drive
loop reports as an internal error). -/
def absorb (f : Frame) (o : OutNode) : Option Frame :=
  match f, o with
  | .document ops frags _ sA qA, .selectionsDone ss =>
    some (.document ops frags ss sA qA)
  | .document ops frags sels sA qA, .operationDone op =>
    some (.document (ops ++ [op]) frags sels sA qA)
  | .document ops frags sels sA qA, .fragmentDone fr =>
    some (.document ops (frags ++ [fr]) sels sA qA)
  | .operation t n _ dirs sels a b c, .variablesDone vs =>
    some (.operation t n vs dirs sels a b c)
  | .operation t n vars _ sels a b c, .directivesDone ds =>
    some (.operation t n vars ds sels a b c)
  | .operation t n vars dirs _ a b c, .selectionsDone ss =>
    some (.operation t n vars dirs ss a b c)
  | .variablesF vars, .variableDefDone v => some (.variablesF (vars ++ [v]))
  | .variableDefinition n t _ dC, .valueDone v =>
    some (.variableDefinition n t (some v) dC)
  | .directivesF ds, .directiveDone d => some (.directivesF (ds ++ [d]))
  | .directiveF n _ aC, .argumentsDone args => some (.directiveF n args aC)
  | .argumentsF args, .argumentDone a => some (.argumentsF (args ++ [a]))
  | .argumentF n _ vP, .valueDone v => some (.argumentF n (some v) vP)
  | .selectionsF sels, .selectionDone s => some (.selectionsF (sels ++ [s]))
  | .fieldF al n _ dirs sels x y z, .argumentsDone args =>
    some (.fieldF al n args dirs sels x y z)
  | .fieldF al n args _ sels x y z, .directivesDone ds =>
    some (.fieldF al n args ds sels x y z)
  | .fieldF al n args dirs _ x y z, .selectionsDone ss =>
    some (.fieldF al n args dirs ss x y z)
  | .listValueF c values, .valueDone v => some (.listValueF c (values ++ [v]))
  | .objectValueF c values pending, .valueDone v =>
    match pending with
    | some n => some (.objectValueF c (dictSet values n v) none)
    | none => none
  | .fragmentSpreadF n _, .directivesDone ds => some (.fragmentSpreadF n ds)
  | .inlineFragmentF ot _ sels a b, .directivesDone ds =>
    some (.inlineFragmentF ot ds sels a b)
  | .inlineFragmentF ot dirs _ a b, .selectionsDone ss =>
    some (.inlineFragmentF ot dirs ss a b)
  | .fragmentF n ot _ sels a b, .directivesDone ds =>
    some (.fragmentF n ot ds sels a b)
  | .fragmentF n ot dirs _ a b, .selectionsDone ss =>
    some (.fragmentF n ot dirs ss a b)
  | _, _ => none

/-- One iteration of the parse() drive loop on a nonempty stack: run the top
frame's next step; abort with the no-progress RuntimeError when the step
neither pushed, nor removed a frame, nor advanced the reader; otherwise
remove frames, deliver a finished node downwards, and push (running the
pushed frame's entry consumption).  The finished Document, delivered when
the bottom frame pops, is returned alongside. -/
def parse_step : List Frame → Reader →
    Except PErr (List Frame × Reader × Option Qm.Document)
  | [], _ => Except.error (PErr.runtime "step on empty stack")
  | top :: rest, r => do
    let so ← top.next r
    if so.toAdd.isNone && so.removeCount = 0 && so.reader.length = r.length then
      Except.error (PErr.runtime
        ("Parser did no change during a step, stop parsing to prevent looping forever (parser: "
          ++ top.pyName ++ ")"))
    else do
      let stack1 := if so.removeCount > 0 then (so.self :: rest).drop so.removeCount
                    else so.self :: rest
      let (stack2, doc?) ←
        match so.out with
        | none => pure (stack1, (none : Option Qm.Document))
        | some (.doc d) => pure (stack1, some d)
        | some o =>
          match stack1 with
          | parent :: rest1 =>
            match absorb parent o with
            | some parent1 => pure (parent1 :: rest1, (none : Option Qm.Document))
            | none => Except.error (PErr.runtime "finished node reached no accumulator")
          | [] => Except.error (PErr.runtime "finished node reached no accumulator")
      match so.toAdd with
      | none => Except.ok (stack2, so.reader, doc?)
      | some child => do
        let (child1, r2) ← child.consume so.reader
        Except.ok (child1 :: stack2, r2, doc?)

/-- The while loop of parse(): step until the stack empties, then reject
dangling significant input.  parse_document's set_document callback is the
threaded Document option. -/
def parse_loop : Nat → List Frame → Reader → Option Qm.Document →
    Except PErr Qm.Document
  | 0, _, _, _ => Except.error (PErr.runtime "out of fuel")
  | _ + 1, [], r, doc? =>
    let (_, ch) := lookup_ch r
    if ch.isSome then Except.error (PErr.parsing "Not all input parsed")
    else
      match doc? with
      | some d => Except.ok d
      | none => Except.error (PErr.runtime "document was not produced")
  | fuel + 1, top :: rest, r, doc? => do
    let (stack1, r1, newDoc) ← parse_step (top :: rest) r
    parse_loop fuel stack1 r1 (newDoc <|> doc?)

/-- Fuel for the drive loop; far more iterations than any step sequence of
the concrete inputs below can take. -/
def parse_fuel (s : String) : Nat := 20 * s.length + 100

/-- gql_parser.parse_document: push the DocumentParser (its consume is a
no-op) and drive the loop. -/
def parse_document (s : String) : Except PErr Qm.Document := do
  let (f0, r0) ← Frame.consume (.document [] [] [] true true) s.data
  parse_loop (parse_fuel s) [f0] r0 none

/-! ## Python runtime values

`Prim` is the PrimitiveType of utils.py (`pyNone` is Python's None; floats
keep their lexeme, since no claim computes with float semantics).  `PyVal`
adds resolver objects with their duck-typed attribute table — a `type` tag
and named attributes that are plain values or invocables, per the resolver
contract; capability invocations receive a primitive argument map (built by
__validate_args) and produce any value. -/

inductive Prim where
  | pyNone
  | bool (b : Bool)
  | int (n : Int)
  | float (lexeme : String)
  | str (s : String)
  | list (xs : List Prim)
  | dict (kvs : List (String × Prim))

mutual
inductive PyVal where
  | pyNone
  | bool (b : Bool)
  | int (n : Int)
  | float (lexeme : String)
  | str (s : String)
  | list (xs : List PyVal)
  | dict (kvs : List (String × PyVal))
  | resolverObj (typeTag : Option String) (attrs : List (String × PyAttr))

inductive PyAttr where
  | plain (v : PyVal)
  | callable (f : List (String × Prim) → Except Unit PyVal)
end

mutual
/-- The inclusion of primitives into the value universe (Python has a single
universe; the split only keeps resolver callables strictly positive). -/
def Prim.toPy : Prim → PyVal
  | .pyNone => .pyNone
  | .bool b => .bool b
  | .int n => .int n
  | .float l => .float l
  | .str s => .str s
  | .list xs => .list (Prim.toPyList xs)
  | .dict kvs => .dict (Prim.toPyDict kvs)

def Prim.toPyList : List Prim → List PyVal
  | [] => []
  | x :: xs => Prim.toPy x :: Prim.toPyList xs

def Prim.toPyDict : List (String × Prim) → List (String × PyVal)
  | [] => []
  | (k, v) :: rest => (k, Prim.toPy v) :: Prim.toPyDict rest
end

/-- The five built-in scalar kinds. -/
inductive ScalarK where
  | int
  | float
  | string
  | boolean
  | id
deriving DecidableEq, Repr

/-! ## Schema construction (gql_schema.py)

This section embeds gql_schema.Schema and its reference-resolution passes.
Referenced types are kept by name (the source's Ref objects get their
ref_type pointer assigned during resolution; in this value-level model,
resolution is the membership check that assignment performs). -/

namespace GS

/-- An error raised as gql_errors.GqlSchemaError. -/
inductive SchErr where
  | schema (msg : String)
deriving DecidableEq, Repr

/-- A type expression position (gql_schema: GqlScalarType instance,
GqlWrappedType, or Ref by name; the constructors turn str into Ref). -/
inductive SOf where
  | scalar (k : ScalarK)
  | ref (name : String)
  | list (ofType : SOf)
  | nonNull (ofType : SOf)
deriving DecidableEq, Repr

/-- gql_schema.InputValue: a type plus an optional primitive default. -/
structure SInput where
  type : SOf
  defaultValue : Option Prim

/-- gql_schema.Field: a result type and an optional named-argument map
(args is None when the field declares no argument list, which the validator
distinguishes from an empty map). -/
structure SField where
  type : SOf
  args : Option (List (String × SInput))

/-- gql_schema.Object: fields plus implemented interface names. -/
structure SObject where
  fields : List (String × SField)
  interfaces : List String

/-- A user type declaration registrable in Schema's types mapping
(gql_schema annotates it Union[GqlWrappedType, Object, Interface, Union,
InputObject]). -/
inductive SDecl where
  | wrapped (w : SOf)
  | objectD (o : SObject)
  | interfaceD (fields : List (String × SField))
  | unionD (possibleTypes : List String)
  | inputObjectD (inputFields : List (String × SInput))

/-- Full-string NAME_RE `^[_A-Za-z][_0-9A-Za-z]*$` check. -/
def isValidName (s : String) : Bool :=
  match s.data with
  | [] => false
  | c :: cs => GqlAlchemy.isNameStart c && cs.all GqlAlchemy.isNameChar

/-- The innermost type of a wrapper chain (the while loop of __resolve_ref
and unwrap). -/
def innermost : SOf → SOf
  | .list t => innermost t
  | .nonNull t => innermost t
  | t => t

/-- Schema.__resolve_ref: a Ref must name a registered type; a wrapper is
walked to its innermost type, which is then resolved when it is a Ref. -/
def resolve_ref (types : List (String × SDecl)) (t : SOf) : Except SchErr Unit :=
  match innermost t with
  | .ref n =>
    if (dictGet types n).isSome then Except.ok ()
    else Except.error (SchErr.schema ("Reference to unknown type: " ++ n))
  | _ => Except.ok ()

/-- The body of one iteration of Schema.__resolve_all_refs, before the
error-wrapping except clause: resolve every reference the declaration makes
and check interface/union membership kinds. -/
def resolve_decl_refs (types : List (String × SDecl)) (d : SDecl) :
    Except SchErr Unit :=
  match d with
  | .wrapped w => resolve_ref types w
  | .objectD o => do
    o.interfaces.forM (fun i => do
      resolve_ref types (SOf.ref i)
      match dictGet types i with
      | some (.interfaceD _) => pure ()
      | _ => Except.error (SchErr.schema
          ("Can extend interfaces only, " ++ i ++ " is not interface")))
    o.fields.forM (fun p => do
      resolve_ref types p.2.type
      match p.2.args with
      | some args => args.forM (fun a => resolve_ref types a.2.type)
      | none => pure ())
  | .interfaceD fields =>
    fields.forM (fun p => do
      resolve_ref types p.2.type
      match p.2.args with
      | some args => args.forM (fun a => resolve_ref types a.2.type)
      | none => pure ())
  | .unionD members =>
    members.forM (fun m => do
      resolve_ref types (SOf.ref m)
      match dictGet types m with
      | some (.objectD _) => pure ()
      | _ => Except.error (SchErr.schema
          ("Union can be defined for objects only, " ++ m ++ " is not object")))
  | .inputObjectD infs => infs.forM (fun p => resolve_ref types p.2.type)

/-- Schema.__resolve_all_refs: iterate the types mapping only — the query
and mutation objects, stored outside it, are not visited — wrapping any
GqlSchemaError into one naming the enclosing type. -/
def resolve_all_refs (types : List (String × SDecl)) : Except SchErr Unit :=
  types.forM (fun p =>
    (resolve_decl_refs types p.2).mapError
      (fun _ => SchErr.schema ("Error resolving ref for " ++ p.1 ++ " type")))

/-- The unwrapped view of a type expression: a scalar kind or a registered
declaration. -/
inductive SResolved where
  | scalarR (k : ScalarK)
  | declR (d : SDecl)

/-- Schema.__resolve_type / GqlWrappedType.unwrap: strip wrappers and follow
refs (a ref may name a registered wrapper, which is unwrapped in turn; the
fuel bounds such chains, which can cycle and then diverge in the source). -/
def resolve_sof : Nat → List (String × SDecl) → SOf → Except SchErr SResolved
  | 0, _, _ => Except.error (SchErr.schema "wrapper reference chain does not terminate")
  | fuel + 1, types, t =>
    match innermost t with
    | .scalar k => Except.ok (.scalarR k)
    | .ref n =>
      match dictGet types n with
      | some (.wrapped w) => resolve_sof fuel types w
      | some d => Except.ok (.declR d)
      | none => Except.error (SchErr.schema
          "This expected to run after refs resolving, but unresolved ref found")
    | .list _ | .nonNull _ => Except.error (SchErr.schema "Error in unwrap method implementation")

/-- GqlOutputType membership of an unwrapped view. -/
def isOutputR : SResolved → Bool
  | .scalarR _ => true
  | .declR (.objectD _) => true
  | .declR (.interfaceD _) => true
  | .declR (.unionD _) => true
  | _ => false

/-- GqlInputType membership of an unwrapped view. -/
def isInputR : SResolved → Bool
  | .scalarR _ => true
  | .declR (.inputObjectD _) => true
  | _ => false

/-- Schema.__verify_in_out_refs: field result types of Objects/Interfaces
must be output types, InputObject field types must be input types. -/
def verify_in_out_refs (types : List (String × SDecl)) : Except SchErr Unit :=
  types.forM (fun p =>
    match p.2 with
    | .objectD o =>
      o.fields.forM (fun f => do
        let u ← resolve_sof (types.length + 1) types f.2.type
        if isOutputR u then pure ()
        else Except.error (SchErr.schema
          ("Field " ++ p.1 ++ "." ++ f.1 ++ " of output type reference input type")))
    | .interfaceD fields =>
      fields.forM (fun f => do
        let u ← resolve_sof (types.length + 1) types f.2.type
        if isOutputR u then pure ()
        else Except.error (SchErr.schema
          ("Field " ++ p.1 ++ "." ++ f.1 ++ " of output type reference input type")))
    | .inputObjectD infs =>
      infs.forM (fun f => do
        let u ← resolve_sof (types.length + 1) types f.2.type
        if isInputR u then pure ()
        else Except.error (SchErr.schema
          ("Field " ++ p.1 ++ "." ++ f.1 ++ " of input type reference output type")))
    | _ => pure ())

/-- Schema.__init__: check every registered type name (and directive name)
against NAME_RE, store query and mutation outside the mapping, then run
reference resolution and the in/out directionality check.  Success returns
the (now immutable) types mapping. -/
def constructSchema (types : List (String × SDecl)) (_query : SObject)
    (_mutation : Option SObject) (directiveNames : List String) :
    Except SchErr (List (String × SDecl)) := do
  types.forM (fun p =>
    if isValidName p.1 then pure ()
    else Except.error (SchErr.schema
      ("Wrong type name, /^[_A-Za-z][_0-9A-Za-z]*$/ required, got " ++ p.1)))
  directiveNames.forM (fun n =>
    if isValidName n then pure ()
    else Except.error (SchErr.schema
      ("Wrong type name, /^[_A-Za-z][_0-9A-Za-z]*$/ required, got " ++ n)))
  resolve_all_refs types
  verify_in_out_refs types
  pure types

/-- The reference name a type expression makes resolve_ref check: its
innermost name, when that is a Ref. -/
def sofRefNames (t : SOf) : List String :=
  match innermost t with
  | .ref n => [n]
  | _ => []

/-- The reference names a field declaration makes resolve_ref check: its
result type's and those of its argument types. -/
def fieldRefNames (f : SField) : List String :=
  sofRefNames f.type ++
    (match f.args with
     | some args => args.flatMap (fun a => sofRefNames a.2.type)
     | none => [])

/-- The reference names a declaration's resolution pass checks: exactly the
names resolve_decl_refs hands to resolve_ref. -/
def declRefNames (d : SDecl) : List String :=
  match d with
  | .wrapped w => sofRefNames w
  | .objectD o => o.interfaces ++ o.fields.flatMap (fun p => fieldRefNames p.2)
  | .interfaceD fields => fields.flatMap (fun p => fieldRefNames p.2)
  | .unionD members => members
  | .inputObjectD infs => infs.flatMap (fun p => sofRefNames p.2.type)

end GS

/-! ## Validator (validator.py) -/

/-- Validator-stage exceptions: GqlValidationError, plus Python's KeyError
(raised by set.remove on a missing element). -/
inductive VErr where
  | validation (msg : String)
  | keyError (key : String)
deriving DecidableEq, Repr

/-- The `for sel_arg in selection_args: required_args.remove(sel_arg.name)`
loop of validate_selection_args: set.remove raises KeyError when the name is
not in the set. -/
def required_remove_loop : List String → List Qm.Argument →
    Except VErr (List String)
  | req, [] => Except.ok req
  | req, a :: rest =>
    if req.contains a.name then required_remove_loop (req.erase a.name) rest
    else Except.error (VErr.keyError a.name)

/-- validator.validate_selection_args: an args_definition of None admits no
arguments; otherwise names with no default are collected as required, every
supplied argument name is removed from that set (KeyError when absent),
leftovers raise the missing-arguments validation error, and only then are
supplied names checked against the declaration. -/
def validate_selection_args (selection_args : List Qm.Argument)
    (args_definition : Option (List (String × GS.SInput))) : Except VErr Unit :=
  match args_definition with
  | none =>
    if selection_args.length > 0 then
      Except.error (VErr.validation "Field does not support args")
    else Except.ok ()
  | some defs => do
    let required := (defs.filter (fun p => p.2.defaultValue.isNone)).map (fun p => p.1)
    let req1 ← required_remove_loop required selection_args
    if req1.length > 0 then
      Except.error (VErr.validation
        ("Selection miss required arguments: " ++ String.intercalate ", " req1))
    else
      selection_args.forM (fun a =>
        if (dictGet defs a.name).isSome then pure ()
        else Except.error (VErr.validation ("Undefined argument: " ++ a.name)))

/-- The operation-selection stage of validator.validate (its first two
checks): with several operations an operation name is mandatory, and a given
name must be defined. -/
def validate_operation_selection (operations : List Qm.Operation)
    (op_to_run : Option String) : Except VErr Unit :=
  if op_to_run.isNone && operations.length > 1 then
    Except.error (VErr.validation
      "You must specify query to run for queryes with many operations")
  else
    match op_to_run with
    | some n =>
      if (operations.map (fun op => op.name)).contains (some n) then Except.ok ()
      else Except.error (VErr.validation
        "Operation requested to run is not defined in the query")
    | none => Except.ok ()

/-! ## The executor's type registry (gql_alchemy.types)

The executor imports gql_alchemy.types and gql_alchemy.schema, neither of
which is under src/ (only gql_schema.py, an earlier variant, is), so the
registry view the executor consumes is modelled from the spec (sections 3,
4.3): interned named types, wrapper type references, classification
predicates, unwrap, the two compatibility checks, and
objects-implementing. -/

/-- Modelled from the spec: a type reference position of gql_alchemy.types —
a named registry entry or a List/NonNull wrapper. -/
inductive TypeRef where
  | named (name : String)
  | list (ofType : TypeRef)
  | nonNull (ofType : TypeRef)
deriving DecidableEq, Repr

/-- Modelled from the spec: gql_alchemy.types.Argument — an input value with
a type and an optional primitive default. -/
structure GArg where
  type : TypeRef
  default : Option Prim

/-- Modelled from the spec: gql_alchemy.types.Field — a result type plus a
named-argument map. -/
structure GField where
  type : TypeRef
  args : List (String × GArg)

/-- Modelled from the spec: an interned type of the registry. -/
inductive TypeDef where
  | scalar (k : ScalarK)
  | enum (symbols : List String)
  | object (fields : List (String × GField)) (interfaces : List String)
  | interface (fields : List (String × GField))
  | union (members : List String)
  | inputObject (fields : List (String × GArg))

/-- Modelled from the spec: the Type Registry, an interned name-to-type map. -/
abbrev TypeRegistry := List (String × TypeDef)

/-- The registry holding the five built-in scalars, always present. -/
def builtinScalars : TypeRegistry :=
  [("Int", .scalar ScalarK.int), ("Float", .scalar ScalarK.float),
   ("String", .scalar ScalarK.string), ("Boolean", .scalar ScalarK.boolean),
   ("ID", .scalar ScalarK.id)]

/-- Executor-stage exceptions: GqlExecutionQueryError,
GqlExecutionResolverError, the NotImplementedError that __select raises on
fragments, and uncaught RuntimeError-class exceptions. -/
inductive ExecErr where
  | queryError (msg : String)
  | resolverError (msg : String)
  | notImplementedError
  | runtimeError (msg : String)
deriving DecidableEq, Repr

/-- The named type at the bottom of a wrapper chain. -/
def baseName : TypeRef → String
  | .named n => n
  | .list t => baseName t
  | .nonNull t => baseName t

/-- gt.is_wrapper as a predicate: List and NonNull are wrappers. -/
def is_wrapper : TypeRef → Bool
  | .named _ => false
  | .list _ => true
  | .nonNull _ => true

/-- Modelled from the spec: registry resolve — every name must be interned
(resolve fails on unknown name with a TypeResolvingError). -/
def registry_resolve (reg : TypeRegistry) (t : TypeRef) : Except String TypeRef :=
  if (dictGet reg (baseName t)).isSome then Except.ok t
  else Except.error ("Can not resolve type: " ++ baseName t)

/-- _OperationRunner.__resolve_type: resolve, wrapping a TypeResolvingError
into a GqlExecutionQueryError carrying its message. -/
def exec_resolve_type (reg : TypeRegistry) (t : TypeRef) : Except ExecErr TypeRef :=
  match registry_resolve reg t with
  | .ok t1 => Except.ok t1
  | .error msg => Except.error (.queryError msg)

/-- _OperationRunner.__resolve_and_unwrap: strip wrappers, look the named
type up, and wrap a TypeResolvingError into a GqlExecutionQueryError. -/
def exec_resolve_and_unwrap (reg : TypeRegistry) (t : TypeRef) :
    Except ExecErr TypeDef :=
  match dictGet reg (baseName t) with
  | some d => Except.ok d
  | none => Except.error (.queryError ("Can not resolve type: " ++ baseName t))

/-- gt.is_spreadable: Object, Interface or Union. -/
def is_spreadable : TypeDef → Bool
  | .object _ _ => true
  | .interface _ => true
  | .union _ => true
  | _ => false

/-- Modelled from the spec: the field map a selectable type exposes
(is_selectable returns a view for Object and Interface only; an Object also
serves the fields of the interfaces it implements, which it may not
redeclare). -/
def selectable_fields (reg : TypeRegistry) : TypeDef →
    Option (List (String × GField))
  | .object fields ifaces =>
    let inherited := ifaces.flatMap (fun i =>
      match dictGet reg i with
      | some (.interface fs) => fs
      | _ => [])
    some (fields ++ inherited.filter (fun p => (dictGet fields p.1).isNone))
  | .interface fields => some fields
  | _ => none

/-- Modelled from the spec: objects-implementing — the names of the Objects
whose declared interfaces include the given one. -/
def objects_by_interface (reg : TypeRegistry) (iface : String) : List String :=
  reg.filterMap (fun p =>
    match p.2 with
    | .object _ ifaces => if ifaces.contains iface then some p.1 else none
    | _ => none)

/-- gt.assert_input: raises unless the type is an input type
(scalar, enum or input object). -/
def assert_input (reg : TypeRegistry) (t : TypeRef) : Except ExecErr Unit :=
  match dictGet reg (baseName t) with
  | some (.scalar _) | some (.enum _) | some (.inputObject _) => Except.ok ()
  | _ => Except.error (.runtimeError "input type expected")

/-- getattr(x, "type", None): only resolver objects carry a type tag. -/
def typeTagOf : PyVal → Option String
  | .resolverObj tag _ => tag
  | _ => none

/-- `getattr(resolver, name).__call__(args)` inside the executor's try
blocks: a missing attribute and a plain attribute's missing __call__ both
raise (AttributeError), as does the invocation itself when the capability
fails; all surface as the generic error the caller wraps. -/
def getattr_call (resolver : PyVal) (name : String)
    (args : List (String × Prim)) : Except Unit PyVal :=
  match resolver with
  | .resolverObj _ attrs =>
    match dictGet attrs name with
    | some (.callable f) => f args
    | some (.plain _) => Except.error ()
    | none => Except.error ()
  | _ => Except.error ()

/-- Modelled from the spec: ConstValue.to_primitive of the missing
query_model variant — a constant value node as a plain primitive (enum
symbols as their string). -/
def qm_to_primitive (fuel : Nat) (v : Qm.Value) : Prim :=
  match fuel with
  | 0 => .pyNone
  | fuel + 1 =>
    match v with
    | .var _ => .pyNone
    | .int n => .int n
    | .float l => .float l
    | .str s => .str s
    | .bool b => .bool b
    | .null => .pyNone
    | .enum s => .str s
    | .list vs | .constList vs => .list (vs.map (qm_to_primitive fuel))
    | .obj kvs | .constObj kvs =>
      .dict (kvs.map (fun p => (p.1, qm_to_primitive fuel p.2)))

/-- Modelled from the spec: Value.to_py_value of the missing query_model
variant — like to_primitive but resolving Variable references against the
bound variable values. -/
def qm_to_py_value (fuel : Nat) (v : Qm.Value) (vals : List (String × Prim)) : Prim :=
  match fuel with
  | 0 => .pyNone
  | fuel + 1 =>
    match v with
    | .var n => (dictGet vals n).getD .pyNone
    | .int n => .int n
    | .float l => .float l
    | .str s => .str s
    | .bool b => .bool b
    | .null => .pyNone
    | .enum s => .str s
    | .list vs | .constList vs => .list (vs.map (fun x => qm_to_py_value fuel x vals))
    | .obj kvs | .constObj kvs =>
      .dict (kvs.map (fun p => (p.1, qm_to_py_value fuel p.2 vals)))

/-- Modelled from the spec: whether a declared variable type satisfies the
type required at a use position — the declared type may carry extra NonNull,
never less. -/
def varTypeSatisfies (declared : TypeRef) (required : TypeRef) : Bool :=
  match declared, required with
  | .nonNull d, .nonNull t => varTypeSatisfies d t
  | .nonNull d, t => varTypeSatisfies d t
  | .list d, .list t => varTypeSatisfies d t
  | .named a, .named b => a = b
  | _, _ => false

/-- Modelled from the spec: which literal kinds satisfy which scalar
(Int literals also satisfy Float, String and Int literals satisfy ID). -/
def scalarLiteralOk : ScalarK → Qm.Value → Bool
  | .int, .int _ => true
  | .float, .int _ => true
  | .float, .float _ => true
  | .string, .str _ => true
  | .boolean, .bool _ => true
  | .id, .str _ => true
  | .id, .int _ => true
  | _, _ => false

/-- Modelled from the spec (section 4.3): validate-input checks a Value node
— possibly a Variable reference resolved against the declared variable types
— against a declared type; a boolean, never raising.  NonNull forbids the
null literal, List checks element-wise, leaves check literal kinds, input
objects check their fields; Variable references are checked against the
declared variable type, not the runtime value. -/
def validate_input (fuel : Nat) (reg : TypeRegistry) (t : TypeRef) (v : Qm.Value)
    (varsValues : List (String × Prim)) (varsDefs : List (String × TypeRef)) : Bool :=
  match fuel with
  | 0 => false
  | fuel + 1 =>
    match v with
    | .var n =>
      match dictGet varsDefs n with
      | some d => varTypeSatisfies d t
      | none => false
    | _ =>
      match t with
      | .nonNull t1 =>
        match v with
        | .null => false
        | _ => validate_input fuel reg t1 v varsValues varsDefs
      | .list t1 =>
        match v with
        | .null => true
        | .list vs => vs.all (fun x => validate_input fuel reg t1 x varsValues varsDefs)
        | .constList vs => vs.all (fun x => validate_input fuel reg t1 x varsValues varsDefs)
        | _ => false
      | .named n =>
        match v with
        | .null => true
        | _ =>
          match dictGet reg n with
          | some (.scalar k) => scalarLiteralOk k v
          | some (.enum syms) =>
            match v with
            | .enum s => syms.contains s
            | _ => false
          | some (.inputObject fields) =>
            match v with
            | .obj kvs =>
              kvs.all (fun p =>
                match dictGet fields p.1 with
                | some a => validate_input fuel reg a.type p.2 varsValues varsDefs
                | none => false)
              && fields.all (fun p => p.2.default.isSome || (dictGet kvs p.1).isSome)
            | .constObj kvs =>
              kvs.all (fun p =>
                match dictGet fields p.1 with
                | some a => validate_input fuel reg a.type p.2 varsValues varsDefs
                | none => false)
              && fields.all (fun p => p.2.default.isSome || (dictGet kvs p.1).isSome)
            | _ => false
          | _ => false

/-- Modelled from the spec: which primitive values satisfy which scalar. -/
def scalarValueOk : ScalarK → PyVal → Bool
  | .int, .int _ => true
  | .float, .int _ => true
  | .float, .float _ => true
  | .string, .str _ => true
  | .boolean, .bool _ => true
  | .id, .str _ => true
  | .id, .int _ => true
  | _, _ => false

/-- Modelled from the spec (sections 4.3 and 8): is-assignable checks a
plain result value against a type — NonNull forbids null, List requires a
list assignable element-wise (null is assignable to every type whose
outermost layer is not NonNull), leaves check value kinds, and composite
spreadable types refuse data-shape checking (resolver capability, not
is-assignable, satisfies them). -/
def is_assignable (fuel : Nat) (reg : TypeRegistry) (t : TypeRef) (v : PyVal) : Bool :=
  match fuel with
  | 0 => false
  | fuel + 1 =>
    match t with
    | .nonNull t1 =>
      match v with
      | .pyNone => false
      | _ => is_assignable fuel reg t1 v
    | .list t1 =>
      match v with
      | .pyNone => true
      | .list xs => xs.all (fun x => is_assignable fuel reg t1 x)
      | _ => false
    | .named n =>
      match v with
      | .pyNone => true
      | _ =>
        match dictGet reg n with
        | some (.scalar k) => scalarValueOk k v
        | some (.enum syms) =>
          match v with
          | .str s => syms.contains s
          | _ => false
        | _ => false

/-! ## Executor (executor.py) -/

/-- _OperationRunner.__validate_args: selection argument names must be
unique and declared; each declared argument takes its supplied value (after
input validation), its default, or validated null. -/
def validate_args (fuel : Nat) (reg : TypeRegistry)
    (varsValues : List (String × Prim)) (varsDefs : List (String × TypeRef))
    (sel_args : List Qm.Argument) (def_args : List (String × GArg)) :
    Except ExecErr (List (String × Prim)) :=
  let sel_args_dict := sel_args.foldl (fun d a => dictSet d a.name a)
    ([] : List (String × Qm.Argument))
  if sel_args_dict.length < sel_args.length then
    Except.error (.queryError "Selection arguments are not unique")
  else if sel_args_dict.any (fun p => (dictGet def_args p.1).isNone) then
    Except.error (.queryError "Undefined argument in selection")
  else
    def_args.foldlM (fun arguments p =>
      match dictGet sel_args_dict p.1 with
      | some arg_sel =>
        if validate_input fuel reg p.2.type arg_sel.value varsValues varsDefs then
          Except.ok (dictSet arguments p.1 (qm_to_py_value fuel arg_sel.value varsValues))
        else Except.error (.queryError "")
      | none =>
        match p.2.default with
        | none =>
          if validate_input fuel reg p.2.type Qm.Value.null varsValues varsDefs then
            Except.ok (dictSet arguments p.1 Prim.pyNone)
          else Except.error (.queryError "")
        | some d => Except.ok (dictSet arguments p.1 d)) []

/-- _OperationRunner.__to_schema_type: a query-model type reference as a
schema type (non-nullable positions wrapped in NonNull). -/
def to_schema_type : Qm.GqlType → TypeRef
  | .named n nullOk => if nullOk then .named n else .nonNull (.named n)
  | .list el nullOk =>
    if nullOk then .list (to_schema_type el)
    else .nonNull (.list (to_schema_type el))

/-- _OperationRunner.__resolver_compatible: strip NonNull (null illegal),
check lists element-wise, and at the bottom compare the sub-resolver's type
tag with the legal concrete names — interface membership, union membership,
or exact object name; a non-spreadable bottom type is a RuntimeError. -/
def resolver_compatible (fuel : Nat) (reg : TypeRegistry) (t : TypeRef)
    (v : PyVal) : Except ExecErr Bool :=
  match fuel with
  | 0 => Except.error (.runtimeError "recursion limit")
  | fuel + 1 =>
    match t with
    | .nonNull t1 =>
      match v with
      | .pyNone => Except.ok false
      | _ => resolver_compatible fuel reg t1 v
    | .list t1 =>
      match v with
      | .list xs => xs.allM (fun x => resolver_compatible fuel reg t1 x)
      | _ => Except.ok false
    | .named n =>
      match dictGet reg n with
      | some (.interface _) =>
        Except.ok (match typeTagOf v with
          | some tag => (objects_by_interface reg n).contains tag
          | none => false)
      | some (.union members) =>
        Except.ok (match typeTagOf v with
          | some tag => members.contains tag
          | none => false)
      | some (.object _ _) => Except.ok (typeTagOf v = some n)
      | _ =>
        Except.error (.runtimeError
          ("Wrapper or spreadable expected here, but got " ++ n))

/-- _OperationRunner.__select_plain_field: obtain the value through the
capability, check is-assignable against the declared type, and use it as a
leaf. -/
def op_select_plain_field (reg : TypeRegistry) (fieldType : TypeRef)
    (name : String) (args : List (String × Prim)) (resolver : PyVal) :
    Except ExecErr PyVal :=
  match getattr_call resolver name args with
  | .error () => Except.error (.resolverError "Resolver internal error")
  | .ok result =>
    if is_assignable 1000 reg fieldType result then Except.ok result
    else Except.error (.resolverError "Resolver returns wrong type")

mutual
/-- _OperationRunner.__select: fields are selected through the selectable
view of the current spreadable type; FragmentSpread and InlineFragment
selections raise NotImplementedError. -/
def op_select (fuel : Nat) (reg : TypeRegistry)
    (varsValues : List (String × Prim)) (varsDefs : List (String × TypeRef))
    (selections : List Qm.Selection) (spreadable : TypeDef) (resolver : PyVal) :
    Except ExecErr (List (String × PyVal)) :=
  match fuel with
  | 0 => Except.error (.runtimeError "recursion limit")
  | fuel + 1 =>
    selections.foldlM (fun result sel =>
      match sel with
      | .field alias_ name args _dirs sels =>
        match selectable_fields reg spreadable with
        | none => Except.error (.queryError
            "Can not select field from union, use fragment or inline spread")
        | some fields =>
          match dictGet fields name with
          | none => Except.error (.queryError "Selecting not defined field")
          | some fieldDef => do
            let v ← op_select_field fuel reg varsValues varsDefs args sels name
              fieldDef resolver
            Except.ok (dictSet result (alias_.getD name) v)
      | .fragmentSpread _ _ => Except.error .notImplementedError
      | .inlineFragment _ _ _ => Except.error .notImplementedError) []

/-- _OperationRunner.__select_field: validate arguments, then dispatch on
whether the unwrapped field type is spreadable (requiring a nonempty nested
selection) or plain. -/
def op_select_field (fuel : Nat) (reg : TypeRegistry)
    (varsValues : List (String × Prim)) (varsDefs : List (String × TypeRef))
    (selArgs : List Qm.Argument) (selSels : List Qm.Selection) (name : String)
    (fieldDef : GField) (resolver : PyVal) : Except ExecErr PyVal :=
  match fuel with
  | 0 => Except.error (.runtimeError "recursion limit")
  | fuel + 1 => do
    let args ← validate_args (fuel + 1) reg varsValues varsDefs selArgs fieldDef.args
    let fieldType := fieldDef.type
    let fieldUnwrapped ← exec_resolve_and_unwrap reg fieldType
    if is_spreadable fieldUnwrapped then
      if selSels.length = 0 then Except.error (.queryError "")
      else
        op_select_spreadable_field fuel reg varsValues varsDefs fieldType
          name args selSels resolver
    else op_select_plain_field reg fieldType name args resolver

/-- _OperationRunner.__select_spreadable_field: obtain the sub-resolver(s)
via the capability (failures wrapped into a resolver error), check resolver
compatibility, and recurse through the nested selections. -/
def op_select_spreadable_field (fuel : Nat) (reg : TypeRegistry)
    (varsValues : List (String × Prim)) (varsDefs : List (String × TypeRef))
    (fieldType : TypeRef) (name : String) (args : List (String × Prim))
    (selSels : List Qm.Selection) (resolver : PyVal) : Except ExecErr PyVal :=
  match fuel with
  | 0 => Except.error (.runtimeError "recursion limit")
  | fuel + 1 => do
    let subresolvers ←
      match getattr_call resolver name args with
      | .ok v => Except.ok v
      | .error () => Except.error (ExecErr.resolverError "Resolver internal error")
    let compat ← resolver_compatible (fuel + 1) reg fieldType subresolvers
    if !compat then
      Except.error (.resolverError "Resolver returns non compatible sub-resolver")
    else do
      let unwrapped ← exec_resolve_and_unwrap reg fieldType
      op_resolve_subresolvers fuel reg varsValues varsDefs selSels unwrapped
        subresolvers

/-- _OperationRunner.__resolve_subresolvers: null passes through, lists map
recursively, and a single sub-resolver is selected into. -/
def op_resolve_subresolvers (fuel : Nat) (reg : TypeRegistry)
    (varsValues : List (String × Prim)) (varsDefs : List (String × TypeRef))
    (selections : List Qm.Selection) (fieldDef : TypeDef) (subresolvers : PyVal) :
    Except ExecErr PyVal :=
  match fuel with
  | 0 => Except.error (.runtimeError "recursion limit")
  | fuel + 1 =>
    match subresolvers with
    | .pyNone => Except.ok .pyNone
    | .list xs => do
      let results ← xs.mapM (fun sr =>
        op_resolve_subresolvers fuel reg varsValues varsDefs selections fieldDef sr)
      Except.ok (.list results)
    | v => do
      let m ← op_select fuel reg varsValues varsDefs selections fieldDef v
      Except.ok (.dict m)
end

/-- The fill run_operation gives an unbound variable: the declared default's
primitive value, null without one (executor.py line 78). -/
def variable_fill (fuel : Nat) (vd : Qm.VariableDefinition) : Prim :=
  match vd.default with
  | some d => qm_to_primitive fuel d
  | none => Prim.pyNone

/-- The default-validation block of run_operation's binding loop (executor.py
lines 64-75): a declared default must pass validate_input against the
declared type — through the wrapper view when the type is wrapped, otherwise
through the asserted input view. -/
def check_variable_default (fuel : Nat) (reg : TypeRegistry)
    (vd : Qm.VariableDefinition) (varType : TypeRef)
    (vals : List (String × Prim)) (defs1 : List (String × TypeRef)) :
    Except ExecErr Unit :=
  match vd.default with
  | some dflt =>
    if is_wrapper varType then
      if validate_input fuel reg varType dflt vals defs1 then pure ()
      else Except.error (.queryError "default is not assignable to type")
    else do
      assert_input reg varType
      if validate_input fuel reg varType dflt vals defs1 then pure ()
      else Except.error (.queryError "default is not assignable to type")
  | none => pure ()

/-- The per-variable body of run_operation's binding loop: resolve the
declared type, record it, validate a declared default, fill a missing value
from the default (null without one), and require the resulting value to be
assignable to the declared type. -/
def bind_variable (fuel : Nat) (reg : TypeRegistry) (vd : Qm.VariableDefinition)
    (st : (List (String × Prim)) × (List (String × TypeRef))) :
    Except ExecErr ((List (String × Prim)) × (List (String × TypeRef))) := do
  let (vals, defs) := st
  let varType ← exec_resolve_type reg (to_schema_type vd.type)
  let defs1 := dictSet defs vd.name varType
  check_variable_default fuel reg vd varType vals defs1
  let vals1 :=
    if (dictGet vals vd.name).isNone then
      dictSet vals vd.name (variable_fill fuel vd)
    else vals
  let value := (dictGet vals1 vd.name).getD Prim.pyNone
  if is_assignable fuel reg varType value.toPy then Except.ok (vals1, defs1)
  else Except.error (.queryError "Wrong value for variable type")

/-- _OperationRunner.run_operation: bind every declared variable, then
evaluate the root selection set (directive application is an acknowledged
todo in the source). -/
def run_operation (fuel : Nat) (reg : TypeRegistry) (rootObject : TypeDef)
    (op : Qm.Operation) (varsSupplied : List (String × Prim))
    (rootResolver : PyVal) : Except ExecErr (List (String × PyVal)) := do
  let (vals, defs) ← op.vars.foldlM
    (fun st vd => bind_variable fuel reg vd st) (varsSupplied, [])
  op_select fuel reg vals defs op.selections rootObject rootResolver

/-- The state of executor.Executor: the schema's registry and root object
names (gql_alchemy.schema is absent from src/; per the spec it exposes
exactly these to the executor) plus the caller's root resolver. -/
structure ExecutorCfg where
  type_registry : TypeRegistry
  resolver : PyVal
  query_object_name : String
  mutation_object_name : Option String

/-- An error escaping Executor.query: a parser exception or an executor
exception. -/
inductive QErr where
  | parseErr (e : PErr)
  | execErr (e : ExecErr)
deriving DecidableEq, Repr

/-- The operation-choosing prefix of Executor.query (its lines between
parsing and root-object selection): demand an operation name when several
operations exist; without a name take operations[0] (an IndexError on an
operation-less document); with a name take the last operation so named, or
fail. -/
def choose_operation (document : Qm.Document) (operationName : Option String) :
    Except ExecErr Qm.Operation :=
  if operationName.isNone && document.operations.length > 1 then
    Except.error (ExecErr.queryError
      "Operation name is needed for queries with multiple operations defined")
  else
    match operationName with
    | none =>
      match document.operations.head? with
      | some op => Except.ok op
      | none => Except.error (ExecErr.runtimeError "IndexError: list index out of range")
    | some nm =>
      match (document.operations.filter
          (fun (op : Qm.Operation) => op.name = some nm)).getLast? with
      | some op => Except.ok op
      | none => Except.error (ExecErr.queryError
          ("Operation `" ++ nm ++ "` is not found"))

/-- Executor.query: parse, choose the operation, choose the root object by
operation kind, and run. -/
def executor_query (fuel : Nat) (ex : ExecutorCfg) (query : String)
    (variableValues : List (String × Prim)) (operationName : Option String) :
    Except QErr PyVal := do
  let document ← (parse_document query).mapError QErr.parseErr
  (do
    let operation ← choose_operation document operationName
    let rootObjectName ←
      match operation.kind with
      | .query => Except.ok ex.query_object_name
      | .mutation =>
        match ex.mutation_object_name with
        | none => Except.error (ExecErr.queryError "Server does not support mutations")
        | some n => Except.ok n
    let rootDef ←
      match dictGet ex.type_registry rootObjectName with
      | some d => Except.ok d
      | none => Except.error (ExecErr.runtimeError "Can not resolve type")
    let m ← run_operation fuel ex.type_registry rootDef operation variableValues
      ex.resolver
    Except.ok (PyVal.dict m)).mapError QErr.execErr

/-! ## Concrete schemas, resolvers and inputs used to settle the claims -/

/-- Scenario 1 registry: built-ins plus `Query\x7bfoo: Int\x7d` (interned as
__Query). -/
def scenario1Registry : TypeRegistry :=
  builtinScalars ++
  [("__Query", TypeDef.object [("foo", ⟨TypeRef.named "Int", []⟩)] [])]

/-- Scenario 1 resolver exposing foo as a plain precomputed attribute 3. -/
def scenario1PlainResolver : PyVal :=
  PyVal.resolverObj (some "__Query") [("foo", PyAttr.plain (PyVal.int 3))]

/-- Scenario 1 resolver exposing foo as an invocable returning 3. -/
def scenario1CallableResolver : PyVal :=
  PyVal.resolverObj (some "__Query")
    [("foo", PyAttr.callable (fun _ => Except.ok (PyVal.int 3)))]

/-- Scenario 1 executor over a given root resolver. -/
def scenario1Exec (r : PyVal) : ExecutorCfg := ⟨scenario1Registry, r, "__Query", none⟩

/-- Scenario 3 registry: interface `Foo\x7bfoo: String\x7d`, objects FooBar
and FooAbc implementing it, and `Query\x7blist: [Foo]\x7d`. -/
def scenario3Registry : TypeRegistry :=
  builtinScalars ++
  [("Foo", TypeDef.interface [("foo", ⟨TypeRef.named "String", []⟩)]),
   ("FooBar", TypeDef.object [("bar", ⟨TypeRef.named "String", []⟩)] ["Foo"]),
   ("FooAbc", TypeDef.object [("abc", ⟨TypeRef.named "String", []⟩)] ["Foo"]),
   ("Query", TypeDef.object [("list", ⟨TypeRef.list (TypeRef.named "Foo"), []⟩)] [])]

/-- Scenario 3 FooBar-tagged element resolver. -/
def scenario3FooBar : PyVal :=
  PyVal.resolverObj (some "FooBar")
    [("foo", PyAttr.callable (fun _ => Except.ok (PyVal.str "foo of FooBar"))),
     ("bar", PyAttr.callable (fun _ => Except.ok (PyVal.str "bar")))]

/-- Scenario 3 FooAbc-tagged element resolver. -/
def scenario3FooAbc : PyVal :=
  PyVal.resolverObj (some "FooAbc")
    [("foo", PyAttr.callable (fun _ => Except.ok (PyVal.str "foo of FooAbc"))),
     ("abc", PyAttr.callable (fun _ => Except.ok (PyVal.str "abc")))]

/-- Scenario 3 root resolver: list returns one element of each object type. -/
def scenario3Root : PyVal :=
  PyVal.resolverObj (some "Query")
    [("list", PyAttr.callable (fun _ =>
        Except.ok (PyVal.list [scenario3FooBar, scenario3FooAbc])))]

/-- Scenario 3 executor. -/
def scenario3Exec : ExecutorCfg := ⟨scenario3Registry, scenario3Root, "Query", none⟩

/-- Registry for the duplicate-argument claim: `Query\x7bf(a: Int): Int\x7d`. -/
def dupArgRegistry : TypeRegistry :=
  builtinScalars ++
  [("Query", TypeDef.object
      [("f", ⟨TypeRef.named "Int", [("a", ⟨TypeRef.named "Int", none⟩)]⟩)] [])]

/-- A query root object whose single field references the unregistered name
Unknown. -/
def danglingQueryRoot : GS.SObject := ⟨[("foo", ⟨GS.SOf.ref "Unknown", none⟩)], []⟩

/-- The amended fragment-spread condition, stated over the raw characters at
a selection-set position: three dots, then one or more spaces or tabs, then
a name whose maximal lexeme is not `on`. -/
def spreadDecision (r : Reader) : Bool :=
  match r with
  | d1 :: d2 :: d3 :: rest =>
    if d1 = '.' ∧ d2 = '.' ∧ d3 = '.' then
      let ws := rest.takeWhile (fun c => c = ' ' || c = '\t')
      !ws.isEmpty &&
        (match matchNameAt (rest.drop ws.length) with
         | some (n, _) => n ≠ "on"
         | none => false)
    else false
  | _ => false

/-! ## Helper lemmas -/

/-- Splitting a successful Except bind. -/
theorem except_bind_ok {ε α β : Type} {x : Except ε α} {f : α → Except ε β} {b : β}
    (h : (x >>= f) = Except.ok b) : ∃ a, x = Except.ok a ∧ f a = Except.ok b := by
  cases x with
  | ok a => exact ⟨a, rfl, h⟩
  | error e => simp [Bind.bind, Except.bind] at h

/-- A successful mapError came from a success. -/
theorem except_mapError_ok {ε ε1 α : Type} {x : Except ε α} {g : ε → ε1} {a : α}
    (h : x.mapError g = Except.ok a) : x = Except.ok a := by
  cases x with
  | ok b => simpa [Except.mapError] using h
  | error e => simp [Except.mapError] at h

/-- A successful Except forM ran every element successfully. -/
theorem list_forM_ok {ε α : Type} {f : α → Except ε Unit} :
    ∀ {l : List α}, l.forM f = Except.ok () → ∀ a ∈ l, f a = Except.ok ()
  | [], _, a, ha => absurd ha (List.not_mem_nil a)
  | x :: xs, h, a, ha => by
    obtain ⟨u, hx, hrest⟩ :=
      except_bind_ok (show (f x >>= fun _ => xs.forM f) = Except.ok () from h)
    rcases List.mem_cons.mp ha with rfl | hmem
    · cases u; exact hx
    · exact list_forM_ok hrest a hmem

/-- Looking up a freshly appended key in a Python dict. -/
theorem dictGet_append_self {α : Type} (k : String) (v : α) :
    ∀ (kvs : List (String × α)), (∀ p ∈ kvs, p.1 ≠ k) →
      dictGet (kvs ++ [(k, v)]) k = some v
  | [], _ => by simp [dictGet, List.find?]
  | hd :: t, h => by
    have hne : hd.1 ≠ k := h hd (List.mem_cons_self hd t)
    have ht := dictGet_append_self k v t (fun p hp => h p (List.mem_cons_of_mem hd hp))
    simp only [List.cons_append, dictGet, List.find?] at ht ⊢
    rw [decide_eq_false hne]
    exact ht

/-- Looking up a key updated in place in a Python dict. -/
theorem dictGet_map_self {α : Type} (k : String) (v : α) :
    ∀ (kvs : List (String × α)), (∃ p ∈ kvs, p.1 = k) →
      dictGet (kvs.map (fun p => if p.1 = k then (k, v) else p)) k = some v
  | [], h => by simp at h
  | hd :: t, h => by
    by_cases hh : hd.1 = k
    · simp [dictGet, List.find?, hh]
    · have ht' : ∃ p ∈ t, p.1 = k := by
        rcases h with ⟨p, hp, hpk⟩
        rcases List.mem_cons.mp hp with rfl | hmem
        · exact absurd hpk hh
        · exact ⟨p, hmem, hpk⟩
      have ht := dictGet_map_self k v t ht'
      simp only [List.map_cons, if_neg hh, dictGet, List.find?] at ht ⊢
      rw [decide_eq_false hh]
      exact ht

/-- dict assignment followed by lookup of the same key. -/
theorem dictGet_dictSet {α : Type} (kvs : List (String × α)) (k : String) (v : α) :
    dictGet (dictSet kvs k v) k = some v := by
  unfold dictSet
  split_ifs with h
  · apply dictGet_map_self
    rcases List.any_eq_true.mp h with ⟨p, hp, hpk⟩
    exact ⟨p, hp, of_decide_eq_true hpk⟩
  · apply dictGet_append_self
    intro p hp hpk
    exact h (List.any_eq_true.mpr ⟨p, hp, decide_eq_true hpk⟩)

/-- A successful resolve_ref interned every name the expression references. -/
theorem resolve_ref_ok_names {types : List (String × GS.SDecl)} {t : GS.SOf}
    (h : GS.resolve_ref types t = Except.ok ()) :
    ∀ rn ∈ GS.sofRefNames t, (dictGet types rn).isSome = true := by
  intro rn hrn
  unfold GS.resolve_ref at h
  unfold GS.sofRefNames at hrn
  cases hi : GS.innermost t with
  | ref n =>
    rw [hi] at h hrn
    simp only [List.mem_singleton] at hrn
    subst hrn
    by_cases hs : (dictGet types rn).isSome = true
    · exact hs
    · rw [Bool.not_eq_true] at hs
      simp [hs] at h
  | scalar k => rw [hi] at hrn; simp at hrn
  | list t1 => rw [hi] at hrn; simp at hrn
  | nonNull t1 => rw [hi] at hrn; simp at hrn

/-- A successful per-declaration resolution pass interned every name the
declaration references. -/
theorem resolve_decl_refs_ok_names {types : List (String × GS.SDecl)}
    {d : GS.SDecl} (h : GS.resolve_decl_refs types d = Except.ok ()) :
    ∀ rn ∈ GS.declRefNames d, (dictGet types rn).isSome = true := by
  intro rn hrn
  cases d with
  | wrapped w => exact resolve_ref_ok_names h rn hrn
  | objectD o =>
    unfold GS.resolve_decl_refs at h
    obtain ⟨u1, hifaces, hfields⟩ := except_bind_ok h
    cases u1
    simp only [GS.declRefNames, List.mem_append] at hrn
    rcases hrn with hrn | hrn
    · have hbody := list_forM_ok hifaces rn hrn
      obtain ⟨u2, href, _⟩ := except_bind_ok hbody
      cases u2
      exact resolve_ref_ok_names href rn (by simp [GS.sofRefNames, GS.innermost])
    · rcases List.mem_flatMap.mp hrn with ⟨pf, hpf, hrnf⟩
      have hbody := list_forM_ok hfields pf hpf
      obtain ⟨u2, href, hargs⟩ := except_bind_ok hbody
      cases u2
      simp only [GS.fieldRefNames, List.mem_append] at hrnf
      rcases hrnf with hrnf | hrnf
      · exact resolve_ref_ok_names href rn hrnf
      · cases hargs' : pf.2.args with
        | none => rw [hargs'] at hrnf; simp at hrnf
        | some args =>
          rw [hargs'] at hrnf hargs
          rcases List.mem_flatMap.mp hrnf with ⟨pa, hpa, hrna⟩
          exact resolve_ref_ok_names (list_forM_ok hargs pa hpa) rn hrna
  | interfaceD fields =>
    unfold GS.resolve_decl_refs at h
    simp only [GS.declRefNames] at hrn
    rcases List.mem_flatMap.mp hrn with ⟨pf, hpf, hrnf⟩
    have hbody := list_forM_ok h pf hpf
    obtain ⟨u2, href, hargs⟩ := except_bind_ok hbody
    cases u2
    simp only [GS.fieldRefNames, List.mem_append] at hrnf
    rcases hrnf with hrnf | hrnf
    · exact resolve_ref_ok_names href rn hrnf
    · cases hargs' : pf.2.args with
      | none => rw [hargs'] at hrnf; simp at hrnf
      | some args =>
        rw [hargs'] at hrnf hargs
        rcases List.mem_flatMap.mp hrnf with ⟨pa, hpa, hrna⟩
        exact resolve_ref_ok_names (list_forM_ok hargs pa hpa) rn hrna
  | unionD members =>
    unfold GS.resolve_decl_refs at h
    simp only [GS.declRefNames] at hrn
    have hbody := list_forM_ok h rn hrn
    obtain ⟨u2, href, _⟩ := except_bind_ok hbody
    cases u2
    exact resolve_ref_ok_names href rn (by simp [GS.sofRefNames, GS.innermost])
  | inputObjectD infs =>
    unfold GS.resolve_decl_refs at h
    simp only [GS.declRefNames] at hrn
    rcases List.mem_flatMap.mp hrn with ⟨pf, hpf, hrnf⟩
    exact resolve_ref_ok_names (list_forM_ok h pf hpf) rn hrnf

/-! ## Claims -/

/-- C1: Scenario 1 — schema `Query\x7bfoo: Int\x7d`, resolver exposing foo
with value 3, query `\x7bfoo\x7d`.  The claim says the query returns
`\x7b"foo": 3\x7d` and that a zero-argument field may be satisfied by a
plain precomputed attribute.  The executor's __select_plain_field calls
`getattr(resolver, name).__call__(args)` unconditionally, so a plain
attribute raises an AttributeError the handler wraps into
GqlExecutionResolverError; only an invocable works.  This theorem evaluates
the pipeline at the failing input (first conjunct) and, for contrast, at an
invocable resolver (second conjunct). -/
theorem c1_plain_attribute_resolver :
    executor_query 100 (scenario1Exec scenario1PlainResolver) "{foo}" [] none =
      Except.error (QErr.execErr (ExecErr.resolverError "Resolver internal error")) ∧
    executor_query 100 (scenario1Exec scenario1CallableResolver) "{foo}" [] none =
      Except.ok (PyVal.dict [("foo", PyVal.int 3)]) :=
  ⟨rfl, rfl⟩

/-- C2: the claim says the executor resolves FragmentSpread and
InlineFragment selections and merges their selections by type condition, so
that Scenario 3's query `\x7blist\x7bfoo ... on FooBar \x7bbar\x7d\x7d\x7d`
returns a list in which only the FooBar-tagged element includes bar.  The
executor's __select raises NotImplementedError on both selection kinds.
First conjunct: the scenario query parses to a selection set containing the
inline fragment; second: executing it raises NotImplementedError; third: a
fragment spread also raises NotImplementedError. -/
theorem c2_fragments_not_implemented :
    parse_document "{list{foo ... on FooBar {bar}}}" =
      Except.ok ⟨[⟨Qm.OpKind.query, none, [], [],
        [Qm.Selection.field none "list" [] []
          [Qm.Selection.field none "foo" [] [] [],
           Qm.Selection.inlineFragment (some (Qm.GqlType.named "FooBar" true)) []
             [Qm.Selection.field none "bar" [] [] []]]]⟩], []⟩ ∧
    executor_query 100 scenario3Exec "{list{foo ... on FooBar {bar}}}" [] none =
      Except.error (QErr.execErr ExecErr.notImplementedError) ∧
    executor_query 100 (scenario1Exec scenario1CallableResolver)
        "{foo ... Frag} fragment Frag on Query {foo}" [] none =
      Except.error (QErr.execErr ExecErr.notImplementedError) :=
  ⟨rfl, rfl, rfl⟩

/-- C3 counterexample: the claim says construction resolves every type name
referenced from any Object of the schema, including the query root's
fields, and raises on an unresolvable one.  Constructing a schema whose
query root's only field references the unregistered name Unknown succeeds:
Schema.__resolve_all_refs iterates the types mapping only, never the query
and mutation objects stored beside it. -/
theorem c3_counterexample :
    GS.constructSchema [] danglingQueryRoot none [] = Except.ok [] ∧
    GS.declRefNames (GS.SDecl.objectD danglingQueryRoot) = ["Unknown"] ∧
    dictGet ([] : List (String × GS.SDecl)) "Unknown" = none :=
  ⟨rfl, rfl, rfl⟩

/-- C3 (amended): after Schema construction succeeds, every type name
referenced from any Object/Interface/Union/InputObject registered in the
types mapping resolves in that mapping (an unresolvable one failed
construction with a Schema error naming the enclosing type); the query and
mutation root objects, passed separately, are not traversed. -/
theorem c3_amended_types_mapping_resolution
    (types : List (String × GS.SDecl)) (q : GS.SObject) (m : Option GS.SObject)
    (dnames : List String) (out : List (String × GS.SDecl))
    (h : GS.constructSchema types q m dnames = Except.ok out) :
    ∀ p ∈ types, ∀ rn ∈ GS.declRefNames p.2, (dictGet types rn).isSome = true := by
  intro p hp rn hrn
  unfold GS.constructSchema at h
  obtain ⟨u1, _, h⟩ := except_bind_ok h
  obtain ⟨u2, _, h⟩ := except_bind_ok h
  obtain ⟨u3, hresolve, _⟩ := except_bind_ok h
  cases u3
  have hdecl := list_forM_ok hresolve p hp
  have hok : GS.resolve_decl_refs types p.2 = Except.ok () := by
    cases hu : GS.resolve_decl_refs types p.2 with
    | ok u => cases u; rfl
    | error e => rw [hu] at hdecl; simp [Except.mapError] at hdecl
  exact resolve_decl_refs_ok_names hok rn hrn

/-- C3 witness: in a two-type schema whose object A references type B and
which constructs successfully, the theorem yields that the referenced name
B resolves in the types mapping. -/
theorem c3_witness :
    (dictGet [("A", GS.SDecl.objectD ⟨[("x", ⟨GS.SOf.ref "B", none⟩)], []⟩),
           ("B", GS.SDecl.objectD ⟨[("y", ⟨GS.SOf.scalar ScalarK.int, none⟩)], []⟩)]
          "B").isSome = true :=
  c3_amended_types_mapping_resolution
    [("A", GS.SDecl.objectD ⟨[("x", ⟨GS.SOf.ref "B", none⟩)], []⟩),
     ("B", GS.SDecl.objectD ⟨[("y", ⟨GS.SOf.scalar ScalarK.int, none⟩)], []⟩)]
    ⟨[], []⟩ none []
    [("A", GS.SDecl.objectD ⟨[("x", ⟨GS.SOf.ref "B", none⟩)], []⟩),
     ("B", GS.SDecl.objectD ⟨[("y", ⟨GS.SOf.scalar ScalarK.int, none⟩)], []⟩)]
    rfl
    ("A", GS.SDecl.objectD ⟨[("x", ⟨GS.SOf.ref "B", none⟩)], []⟩)
    (List.mem_cons_self _ _) "B" (by decide)

/-- C4: the claim says a shorthand operation is accepted iff it is the
document's only operation, and any document combining a shorthand operation
with another operation is rejected.  DocumentParser's mutation branch never
clears selection_allowed, so a shorthand operation combines with a mutation
in either order; only the query combinations are rejected.  The conjuncts
evaluate: the sole-shorthand document parses; shorthand plus mutation
parses to two operations (the claim says it must fail); shorthand before or
after a query operation is rejected. -/
theorem c4_shorthand_mutation_accepted :
    parse_document "{foo}" =
      Except.ok ⟨[⟨Qm.OpKind.query, none, [], [],
        [Qm.Selection.field none "foo" [] [] []]⟩], []⟩ ∧
    parse_document "{foo} mutation {bar}" =
      Except.ok ⟨[⟨Qm.OpKind.query, none, [], [],
          [Qm.Selection.field none "foo" [] [] []]⟩,
        ⟨Qm.OpKind.mutation, none, [], [],
          [Qm.Selection.field none "bar" [] [] []]⟩], []⟩ ∧
    parse_document "{foo} query {bar}" =
      Except.error (PErr.parsing "One of top-level declaration expected") ∧
    parse_document "query {bar} {foo}" =
      Except.error (PErr.parsing "One of top-level declaration expected") :=
  ⟨rfl, rfl, rfl, rfl⟩

/-- C5: the claim says omitting a non-default argument and supplying an
undeclared argument both raise a Validation error.  Omission does (second
conjunct, naming the argument), but validate_selection_args removes every
supplied name from the required-set with set.remove, which raises a bare
KeyError for any name not in that set — an undeclared argument (first
conjunct) and even a declared argument that has a default (third conjunct)
— so the dead `Undefined argument` check below it is never reached. -/
theorem c5_undeclared_argument_keyerror :
    validate_selection_args [⟨"a", Qm.Value.int 1⟩, ⟨"b", Qm.Value.int 2⟩]
      (some [("a", ⟨GS.SOf.scalar ScalarK.int, none⟩)]) =
      Except.error (VErr.keyError "b") ∧
    validate_selection_args []
      (some [("a", ⟨GS.SOf.scalar ScalarK.int, none⟩)]) =
      Except.error (VErr.validation "Selection miss required arguments: a") ∧
    validate_selection_args [⟨"a", Qm.Value.int 1⟩]
      (some [("a", ⟨GS.SOf.scalar ScalarK.int, some (Prim.int 5)⟩)]) =
      Except.error (VErr.keyError "a") :=
  ⟨rfl, rfl, rfl⟩

/-- C10: a field selection carrying two same-named arguments parses (the
parser stores both), and Executor.query raises GqlExecutionQueryError
`Selection arguments are not unique` for every root resolver — the error
precedes any resolver capability, so the result does not depend on the
resolver at all. -/
theorem c10_duplicate_arguments :
    parse_document "{f(a: 1, a: 2)}" =
      Except.ok ⟨[⟨Qm.OpKind.query, none, [], [],
        [Qm.Selection.field none "f"
          [⟨"a", Qm.Value.int 1⟩, ⟨"a", Qm.Value.int 2⟩] [] []]⟩], []⟩ ∧
    ∀ r : PyVal, executor_query 100 ⟨dupArgRegistry, r, "Query", none⟩
        "{f(a: 1, a: 2)}" [] none =
      Except.error (QErr.execErr (ExecErr.queryError "Selection arguments are not unique")) :=
  ⟨rfl, fun _ => rfl⟩

/-- C6: in run_operation's variable-binding step, a declared variable with
no entry in the supplied values is filled from its declared default (null
without one); the step succeeds only when the filled value is assignable to
the declared variable type, and raises an execution error otherwise — in
particular an unbound NonNull variable with no default errors (see the
witness). -/
theorem c6_variable_binding (fuel : Nat) (reg : TypeRegistry)
    (vd : Qm.VariableDefinition) (vals : List (String × Prim))
    (defs : List (String × TypeRef)) (varType : TypeRef)
    (hmiss : dictGet vals vd.name = none)
    (hty : exec_resolve_type reg (to_schema_type vd.type) = Except.ok varType) :
    (∀ out, bind_variable fuel reg vd (vals, defs) = Except.ok out →
        dictGet out.1 vd.name = some (variable_fill fuel vd) ∧
        is_assignable fuel reg varType (variable_fill fuel vd).toPy = true) ∧
    (is_assignable fuel reg varType (variable_fill fuel vd).toPy = false →
        ∃ e, bind_variable fuel reg vd (vals, defs) = Except.error e) := by
  have hpart1 : ∀ out, bind_variable fuel reg vd (vals, defs) = Except.ok out →
      dictGet out.1 vd.name = some (variable_fill fuel vd) ∧
      is_assignable fuel reg varType (variable_fill fuel vd).toPy = true := by
    intro out hok
    unfold bind_variable at hok
    obtain ⟨vt, hvt, hok⟩ := except_bind_ok hok
    rw [hty] at hvt
    injection hvt with hvt
    subst hvt
    obtain ⟨u, _, hok⟩ := except_bind_ok hok
    cases u
    rw [hmiss] at hok
    simp only [Option.isNone_none, if_true, dictGet_dictSet, Option.getD_some] at hok
    by_cases ha : is_assignable fuel reg varType (variable_fill fuel vd).toPy = true
    · rw [if_pos ha] at hok
      injection hok with hok
      subst hok
      exact ⟨dictGet_dictSet vals vd.name (variable_fill fuel vd), ha⟩
    · rw [if_neg ha] at hok
      exact absurd hok (by simp)
  refine ⟨hpart1, ?_⟩
  intro hfalse
  cases hres : bind_variable fuel reg vd (vals, defs) with
  | ok out =>
    have := (hpart1 out hres).2
    rw [this] at hfalse
    exact absurd hfalse (by simp)
  | error e => exact ⟨e, rfl⟩

/-- C6 witness: an unbound NonNull Int variable with no default makes the
binding step raise. -/
theorem c6_witness :
    ∃ e, bind_variable 100 scenario1Registry
      ⟨"v", Qm.GqlType.named "Int" false, none⟩ ([], []) = Except.error e :=
  (c6_variable_binding 100 scenario1Registry
    ⟨"v", Qm.GqlType.named "Int" false, none⟩ [] []
    (TypeRef.nonNull (TypeRef.named "Int")) rfl rfl).2 rfl

/-- C7 counterexample: the claim says `...` immediately followed by a name
other than `on` produces a FragmentSpread node.  In `\x7b...foo\x7d` the
dots are followed by the name foo, yet parsing fails: the spread-detection
regex demands at least one space or tab between the dots and the name, so
the inline-fragment path is taken and its `...` literal (whose lookahead
requires a non-name character) rejects the input. -/
theorem c7_counterexample :
    parse_document "{...foo}" = Except.error (PErr.parsing "Expected '...'") ∧
    matchNameAt ("foo\x7d".data) = some ("foo", ['\x7d']) ∧
    "foo" ≠ "on" :=
  ⟨rfl, rfl, by decide⟩

/-- The fragment-kind decision as one expression: what SelectionsParser
pushes for each detection outcome. -/
theorem spread_choice {α : Type} (rest : Reader) (A B : α) :
    (match detectFragmentSpread ('.' :: rest) with
     | some n => if n ≠ "on" then A else B
     | none => B) =
    (if spreadDecision ('.' :: rest) then A else B) := by
  rcases rest with _ | ⟨c1, _ | ⟨c2, rest3⟩⟩
  · rfl
  · rfl
  · by_cases h1 : c1 = '.'
    · subst h1
      by_cases h2 : c2 = '.'
      · subst h2
        simp only [detectFragmentSpread, spreadDecision, and_self, if_pos, true_and]
        by_cases hws : (rest3.takeWhile (fun c => c = ' ' || c = '\t')).isEmpty
        · simp [hws]
        · cases hm : matchNameAt
              (rest3.drop (rest3.takeWhile (fun c => c = ' ' || c = '\t')).length) with
          | none => simp [hws, hm]
          | some p =>
            by_cases hon : p.1 = "on"
            · simp [hws, hm, hon]
            · simp [hws, hm, hon]
      · simp [detectFragmentSpread, spreadDecision, h2]
    · simp [detectFragmentSpread, spreadDecision, h1]

/-- C7 (amended): at a selection-set position whose next significant
character is a dot, SelectionsParser pushes the FragmentSpread parser iff
the raw input there is three dots, one or more spaces or tabs, and then a
name other than `on`; otherwise it pushes the InlineFragment parser. -/
theorem c7_amended_spread_decision (sels : List Qm.Selection) (r rest : Reader)
    (h : skipInsignificant r = '.' :: rest) :
    Frame.next (Frame.selectionsF sels) r =
      Except.ok ⟨Frame.selectionsF sels,
        some (if spreadDecision ('.' :: rest) then Frame.fragmentSpreadF none []
              else Frame.inlineFragmentF none [] [] false false),
        0, none, '.' :: rest⟩ := by
  have hskip : skipInsignificant ('.' :: rest) = '.' :: rest := rfl
  have hri : read_if r '}' = ('.' :: rest, false) := by
    simp [read_if, lookup_ch, h]
  have hlu : lookup_ch ('.' :: rest) = ('.' :: rest, some '.') := by
    simp [lookup_ch, hskip]
  have hsd := spread_choice rest true false
  unfold Frame.next
  rw [hri]
  simp only [Bool.false_eq_true, if_false]
  rw [hlu]
  simp only [if_pos rfl]
  cases hd : detectFragmentSpread ('.' :: rest) with
  | none =>
    rw [hd] at hsd
    simp at hsd
    simp [hsd]
  | some n =>
    rw [hd] at hsd
    by_cases hon : n = "on"
    · subst hon
      simp at hsd
      simp [hsd]
    · simp [hon] at hsd
      simp [hsd, hon]

/-- C7 witness: at the concrete position `... frag\x7d` the decision is
taken as the theorem describes. -/
theorem c7_witness :
    Frame.next (Frame.selectionsF []) ("... frag\x7d".data) =
      Except.ok ⟨Frame.selectionsF [],
        some (if spreadDecision ('.' :: (".. frag\x7d".data))
              then Frame.fragmentSpreadF none []
              else Frame.inlineFragmentF none [] [] false false),
        0, none, '.' :: (".. frag\x7d".data)⟩ :=
  c7_amended_spread_decision [] ("... frag\x7d".data) (".. frag\x7d".data) rfl

/-- C8: both the validator's operation-selection stage and Executor.query's
operation choice reject a multi-operation document given no operation name;
a single-operation document needs none. -/
theorem c8_operation_ambiguity (doc : Qm.Document) :
    (doc.operations.length > 1 →
      validate_operation_selection doc.operations none =
        Except.error (VErr.validation
          "You must specify query to run for queryes with many operations") ∧
      choose_operation doc none =
        Except.error (ExecErr.queryError
          "Operation name is needed for queries with multiple operations defined")) ∧
    (doc.operations.length = 1 →
      validate_operation_selection doc.operations none = Except.ok () ∧
      ∃ op, choose_operation doc none = Except.ok op) := by
  constructor
  · intro hlen
    constructor
    · unfold validate_operation_selection
      simp [hlen]
    · unfold choose_operation
      simp [hlen]
  · intro hlen
    obtain ⟨op, hop⟩ : ∃ op, doc.operations = [op] := by
      cases ho : doc.operations with
      | nil => rw [ho] at hlen; simp at hlen
      | cons a t =>
        cases t with
        | nil => exact ⟨a, rfl⟩
        | cons b t2 => rw [ho] at hlen; simp at hlen
    constructor
    · unfold validate_operation_selection
      simp [hop]
    · refine ⟨op, ?_⟩
      unfold choose_operation
      simp [hop]

/-- C8 witness: a two-operation document is rejected by both components and
a one-operation document is accepted by both, at concrete documents. -/
theorem c8_witness :
    (validate_operation_selection
        [⟨Qm.OpKind.query, some "a", [], [], []⟩, ⟨Qm.OpKind.query, some "b", [], [], []⟩]
        none =
      Except.error (VErr.validation
        "You must specify query to run for queryes with many operations") ∧
      choose_operation
        ⟨[⟨Qm.OpKind.query, some "a", [], [], []⟩, ⟨Qm.OpKind.query, some "b", [], [], []⟩], []⟩
        none =
      Except.error (ExecErr.queryError
        "Operation name is needed for queries with multiple operations defined")) ∧
    (validate_operation_selection [⟨Qm.OpKind.query, none, [], [], []⟩] none =
        Except.ok () ∧
      ∃ op, choose_operation ⟨[⟨Qm.OpKind.query, none, [], [], []⟩], []⟩ none =
        Except.ok op) :=
  ⟨(c8_operation_ambiguity
      ⟨[⟨Qm.OpKind.query, some "a", [], [], []⟩, ⟨Qm.OpKind.query, some "b", [], [], []⟩], []⟩).1
      (by simp),
   (c8_operation_ambiguity ⟨[⟨Qm.OpKind.query, none, [], [], []⟩], []⟩).2 rfl⟩

/-- C9: one iteration of the parse drive loop either pushes a child frame,
removes at least one frame, or advances the reader; a step that does none
of these makes the loop raise its no-progress RuntimeError immediately
rather than repeat the same state, so the loop cannot stay in one state
forever. -/
theorem c9_drive_loop_progress (top : Frame) (rest : List Frame) (r : Reader)
    (so : StepOut) (h : Frame.next top r = Except.ok so) :
    (so.toAdd = none ∧ so.removeCount = 0 ∧ so.reader.length = r.length →
      parse_step (top :: rest) r = Except.error (PErr.runtime
        ("Parser did no change during a step, stop parsing to prevent looping forever (parser: "
          ++ top.pyName ++ ")"))) ∧
    (∀ out, parse_step (top :: rest) r = Except.ok out →
      so.toAdd.isSome = true ∨ 1 ≤ so.removeCount ∨ so.reader.length ≠ r.length) := by
  constructor
  · rintro ⟨h1, h2, h3⟩
    simp only [parse_step]
    rw [h]
    simp [Bind.bind, Except.bind, h1, h2, h3]
  · intro out hout
    by_contra hc
    push_neg at hc
    obtain ⟨hna, hnr, hne⟩ := hc
    have h1 : so.toAdd = none := by
      cases ha : so.toAdd with
      | none => rfl
      | some f => rw [ha] at hna; simp at hna
    have h2 : so.removeCount = 0 := by omega
    simp only [parse_step] at hout
    rw [h] at hout
    simp [Bind.bind, Except.bind, h1, h2, hne] at hout

/-- C9 witness: the initial step on `\x7ba\x7d` pushes a child frame. -/
theorem c9_witness :
    (some (Frame.selectionsF [])).isSome = true ∨
      1 ≤ (0 : Nat) ∨ (['{', 'a', '}'] : Reader).length ≠ ("{a}".data).length :=
  (c9_drive_loop_progress (Frame.document [] [] [] true true) [] ("{a}".data)
      ⟨Frame.document [] [] [] false false, some (Frame.selectionsF []), 0, none,
        ['{', 'a', '}']⟩ rfl).2 _ rfl

end GqlAlchemy
